import Mathlib

/-! ## sensor_manage_hub: client bootstrap and logging facility

A shallow embedding of the Go sources

* `backend/pkg/logs/zap.go`
* `backend/internal/db/influxdb/client.go`
* `internal/db/minio/client.go`
* `internal/db/mysql/client.go`
* `backend/config/config.go`
* `backend/cmd/main.go`

Go packages become Lean namespaces.  Package-level variables live in one
record `World`; a stateful Go function becomes a function from `World` to its
results paired with the next `World`, the results wrapped in `Outcome` where
the Go code can panic on a nil pointer.

Vendor libraries (influxdb3, minio-go, database/sql, viper, zap) are not part
of the repository.  Their answers are read from a record `Env`, which stands
for the outside world at the time of one call: two calls may be given
different `Env`s.  A vendor constructor answers with a non-nil client or with
an error.  Every call made to a vendor library is appended to `World.trace`.
The trace also receives a ghost `Event.call` marker at the entry of each
stateful function of the repository, so that "function f was not invoked" is
a statement about the trace.

A Go `error` is modelled by its message text, `none` being the nil error
(every error the repository builds is made by `fmt.Errorf` with the verb
`%v`, which keeps the text of the cause only).  A Go pointer that may be nil
is an `Option`; vendor objects and loggers carry an address so that "the
identical instance" is equality of addresses.  Go `int` is modelled by `Int`.
-/

/-- Go `error` values, by message; the nil error is `none`. -/
abbrev GoError := Option String

/-- Address of a vendor object (a non-nil Go pointer). -/
abbrev Ptr := Nat

/-- Result of running Go code: a normal return or a run-time panic
(nil pointer dereference). -/
inductive Outcome (α : Type) where
  | ret (a : α)
  | fault
  deriving DecidableEq, Repr

/-! ## strings -/

namespace strings

/-- One rune of Go's `unicode.ToLower`: ASCII capitals, and the two non-ASCII
runes whose lower case is an ASCII letter (U+0130 and U+212A).  Other case
pairs lie wholly outside ASCII and are left unchanged here; the repository
only compares lowered strings with ASCII keywords. -/
def toLowerRune (c : Char) : Char :=
  if 65 ≤ c.toNat ∧ c.toNat ≤ 90 then Char.ofNat (c.toNat + 32)
  else if c.toNat = 0x130 then 'i'
  else if c.toNat = 0x212A then 'k'
  else c

/-- Go `strings.ToLower`. -/
def ToLower (s : String) : String := String.mk (s.data.map toLowerRune)

end strings

/-! ## package logs: types -/

namespace logs

structure FileRotate where
  Filename : String
  MaxSize : Int
  MaxBackups : Int
  MaxAge : Int
  Compress : Bool
  Enable : Bool
  deriving DecidableEq, Repr

/-- Go zero value of `FileRotate`. -/
def FileRotate.zero : FileRotate :=
  { Filename := "", MaxSize := 0, MaxBackups := 0, MaxAge := 0, Compress := false, Enable := false }

structure Config where
  Level : String
  Encoding : String
  Development : Bool
  EnableCaller : Bool
  EnableStacktrace : Bool
  Sampling : Bool
  OutputPaths : List String
  ErrorOutputPaths : List String
  ServiceName : String
  Environment : String
  File : FileRotate
  deriving DecidableEq, Repr

/-- The zap levels that `parseLevel` can return. -/
inductive Level where
  | DebugLevel
  | InfoLevel
  | WarnLevel
  | ErrorLevel
  deriving DecidableEq, Repr

/-- The two level encoders used by `encoderConfig`. -/
inductive LevelEncoder where
  | LowercaseLevelEncoder
  | CapitalColorLevelEncoder
  deriving DecidableEq, Repr

/-- The fields of `zapcore.EncoderConfig` that `encoderConfig` sets; function
valued fields other than `EncodeLevel` are recorded by the name of the
function. -/
structure EncoderConfig where
  TimeKey : String
  LevelKey : String
  NameKey : String
  CallerKey : String
  MessageKey : String
  StacktraceKey : String
  LineEnding : String
  EncodeTime : String
  EncodeLevel : LevelEncoder
  EncodeCaller : String
  EncodeDuration : String
  deriving DecidableEq, Repr

/-- A `zapcore.Encoder`: human readable (console) or structured (JSON). -/
inductive Encoder where
  | Console (c : EncoderConfig)
  | JSON (c : EncoderConfig)
  deriving DecidableEq, Repr

/-- A `lumberjack.Logger` literal. -/
structure Lumberjack where
  Filename : String
  MaxSize : Int
  MaxBackups : Int
  MaxAge : Int
  Compress : Bool
  deriving DecidableEq, Repr

/-- A `zapcore.WriteSyncer` as built by `writerFor` and `New`. -/
inductive WriteSyncer where
  | Stdout
  | Stderr
  | Rotating (l : Lumberjack)
  deriving DecidableEq, Repr

/-- A `zapcore.Core` as built by `zapcore.NewCore enc ws level`. -/
structure Core where
  enc : Encoder
  ws : WriteSyncer
  level : Level
  deriving DecidableEq, Repr

/-- The `zap.Option` values that `New` appends. `Custom` stands for an
option supplied by the caller through the variadic parameter. -/
inductive ZapOption where
  | AddCaller
  | AddCallerSkip (n : Int)
  | AddStacktrace (lvl : Level)
  | WrapCoreSampler (tickNanos : Int) (first : Int) (thereafter : Int)
  | Fields (fs : List (String × String))
  | Custom (name : String)
  deriving DecidableEq, Repr

/-- A `*zap.Logger` produced by `zap.New (zapcore.NewTee cores...) opts...`,
at address `addr`. -/
structure Logger where
  addr : Nat
  cores : List Core
  opts : List ZapOption
  deriving DecidableEq, Repr

/-- A `*zap.SugaredLogger` produced by the method `Sugar` of `base`. -/
structure SugaredLogger where
  base : Logger
  deriving DecidableEq, Repr

/-! ## package logs: pure helpers -/

def DevConfig : Config :=
  { Level := "debug"
    Encoding := "console"
    Development := true
    EnableCaller := true
    EnableStacktrace := false
    Sampling := false
    OutputPaths := ["stdout"]
    ErrorOutputPaths := ["stderr"]
    ServiceName := "example-svc"
    Environment := "dev"
    File := FileRotate.zero }

def ProdConfig : Config :=
  { Level := "info"
    Encoding := "json"
    Development := false
    EnableCaller := true
    EnableStacktrace := true
    Sampling := true
    OutputPaths := ["stdout"]
    ErrorOutputPaths := ["stderr"]
    ServiceName := "example-svc"
    Environment := "prod"
    File :=
      { Enable := true
        Filename := "./logs/app.log"
        MaxSize := 256
        MaxBackups := 10
        MaxAge := 14
        Compress := true } }

def parseLevel (lv : String) : Level :=
  let l := strings.ToLower lv
  if l = "debug" then Level.DebugLevel
  else if l = "warn" ∨ l = "warning" then Level.WarnLevel
  else if l = "error" then Level.ErrorLevel
  else Level.InfoLevel

def encoderConfig (dev : Bool) : EncoderConfig :=
  let c : EncoderConfig :=
    { TimeKey := "ts"
      LevelKey := "level"
      NameKey := "logger"
      CallerKey := "caller"
      MessageKey := "msg"
      StacktraceKey := "stack"
      LineEnding := "\n"
      EncodeTime := "iso8601TimeEncoder"
      EncodeLevel := LevelEncoder.LowercaseLevelEncoder
      EncodeCaller := "ShortCallerEncoder"
      EncodeDuration := "MillisDurationEncoder" }
  if dev then { c with EncodeLevel := LevelEncoder.CapitalColorLevelEncoder } else c

def writerFor (path : String) : WriteSyncer :=
  let l := strings.ToLower path
  if l = "stdout" then WriteSyncer.Stdout
  else if l = "stderr" then WriteSyncer.Stderr
  else WriteSyncer.Rotating
    { Filename := path, MaxSize := 128, MaxBackups := 7, MaxAge := 7, Compress := true }

def defaultInt (v def_ : Int) : Int :=
  if v > 0 then v else def_

/-- The encoder closure of `New`. -/
def chooseEncoder (cfg : Config) : Encoder :=
  if strings.ToLower cfg.Encoding = "console" then Encoder.Console (encoderConfig cfg.Development)
  else Encoder.JSON (encoderConfig cfg.Development)

/-- The output paths after the `len(cfg.OutputPaths) == 0` default of `New`. -/
def effectiveOutputPaths (cfg : Config) : List String :=
  if cfg.OutputPaths.length = 0 then ["stdout"] else cfg.OutputPaths

/-- Whether `New` adds the rotating file core. -/
def fileSinkAdded (cfg : Config) : Bool :=
  cfg.File.Enable && decide (cfg.File.Filename ≠ "")

/-- The rotating file core of `New`. -/
def fileCore (cfg : Config) : Core :=
  { enc := chooseEncoder cfg
    ws := WriteSyncer.Rotating
      { Filename := cfg.File.Filename
        MaxSize := defaultInt cfg.File.MaxSize 128
        MaxBackups := defaultInt cfg.File.MaxBackups 7
        MaxAge := defaultInt cfg.File.MaxAge 7
        Compress := cfg.File.Compress }
    level := parseLevel cfg.Level }

/-- The slice `cores` of `New` just before `zapcore.NewTee`. -/
def buildCores (cfg : Config) : List Core :=
  let level := parseLevel cfg.Level
  let enc := chooseEncoder cfg
  let cores := (effectiveOutputPaths cfg).map (fun p => { enc := enc, ws := writerFor p, level := level })
  if fileSinkAdded cfg then cores ++ [fileCore cfg] else cores

/-- One second in nanoseconds (`time.Second`). -/
def timeSecond : Int := 1000000000

/-- The slice `opts` of `New` just before `zap.New`. -/
def buildOpts (cfg : Config) (opts : List ZapOption) : List ZapOption :=
  let opts := if cfg.EnableCaller then opts ++ [ZapOption.AddCaller, ZapOption.AddCallerSkip 1] else opts
  let opts := if cfg.EnableStacktrace then opts ++ [ZapOption.AddStacktrace Level.ErrorLevel] else opts
  let opts := if cfg.Sampling then opts ++ [ZapOption.WrapCoreSampler timeSecond 100 100] else opts
  opts ++ [ZapOption.Fields [("svc", cfg.ServiceName), ("env", cfg.Environment)]]

/-- Go `New(cfg, opts...)`; `addr` is the address at which `zap.New`
allocates the logger (`zap.New` never returns a nil pointer).  The error
result is always nil. -/
def New (cfg : Config) (opts : List ZapOption) (addr : Nat) : Logger × GoError :=
  ({ addr := addr, cores := buildCores cfg, opts := buildOpts cfg opts }, none)

end logs

/-! ## client packages: types -/

namespace influxdb

/-- The wrapper `InfluxDBClient`; `Client` is a `*influxdb3.Client`. -/
structure InfluxDBClient where
  Client : Option Ptr
  deriving DecidableEq, Repr

structure InfluxDBConfig where
  Host : String
  Token : String
  Database : String
  deriving DecidableEq, Repr

end influxdb

namespace minio

structure MinIOConfig where
  Endpoint : String
  AccessKeyID : String
  SecretAccessKey : String
  UseSSL : Bool
  Region : String
  deriving DecidableEq, Repr

/-- The wrapper `MinIOClient`; `Client` is a `*minio.Client`. -/
structure MinIOClient where
  Client : Option Ptr
  deriving DecidableEq, Repr

end minio

namespace mysql

/-- The wrapper `MysqlClient`; `Client` is a `*sql.DB`. -/
structure MysqlClient where
  Client : Option Ptr
  deriving DecidableEq, Repr

structure MysqlCOnfig where
  Host : String
  Port : Int
  User : String
  Password : String
  Database : String
  Charset : String
  MaxOpenConns : Int
  MaxIdleConns : Int
  MaxLifetime : Int
  deriving DecidableEq, Repr

end mysql

namespace config

structure Config where
  InfluxDB : influxdb.InfluxDBConfig
  MinIO : minio.MinIOConfig
  Mysql : mysql.MysqlCOnfig
  deriving DecidableEq, Repr

end config

namespace main

/-- The holder `Client` of `cmd/main.go`; each field is a wrapper pointer. -/
structure Client where
  InfluxDB : Option influxdb.InfluxDBClient
  MinIO : Option minio.MinIOClient
  Mysql : Option mysql.MysqlClient
  deriving DecidableEq, Repr

end main

/-! ## the process state and the outside world -/

/-- What viper holds after `ReadInConfig`, kept abstract. -/
abbrev Settings := String

/-- Calls that leave the repository (vendor libraries, standard output), and
the ghost marker `call` recorded at the entry of each stateful function. -/
inductive Event where
  | call (fn : String)
  | influxNew (host token database : String)
  | influxQuery (c : Ptr) (timeoutNanos : Int) (query : String)
  | influxClose (c : Ptr)
  | minioNew (endpoint accessKeyID secretAccessKey : String) (secure : Bool) (region : String)
  | minioListBuckets (c : Ptr) (timeoutNanos : Int)
  | sqlOpen (driver dsn : String)
  | sqlSetMaxOpenConns (db : Ptr) (n : Int)
  | sqlSetMaxIdleConns (db : Ptr) (n : Int)
  | sqlSetConnMaxLifetime (db : Ptr) (nanos : Int)
  | sqlPing (db : Ptr)
  | sqlClose (db : Option Ptr)
  | viperSetConfigFile (path : String)
  | viperReadInConfig
  | viperUnmarshal (tagName : String)
  | fmtPrintln (cfg : Option config.Config)
  | zapReplaceGlobals (logger : Nat)
  | logInfo (logger : Nat) (msg : String)
  deriving DecidableEq, Repr

/-- The package-level variables of the repository, the allocator position
and the trace of events so far. -/
structure World where
  InfluxDBCli : Option Ptr
  MysqlCli : Option mysql.MysqlClient
  globalLogger : Option logs.Logger
  globalSugar : Option logs.SugaredLogger
  AppClient : Option main.Client
  nextAddr : Nat
  trace : List Event
  deriving DecidableEq, Repr

/-- The state of a process that has just started. -/
def World.init : World :=
  { InfluxDBCli := none, MysqlCli := none, globalLogger := none, globalSugar := none,
    AppClient := none, nextAddr := 0, trace := [] }

/-- Append one event to the trace. -/
def World.emit (w : World) (e : Event) : World :=
  { w with trace := w.trace ++ [e] }

/-- The answers of the vendor libraries and the file system at the time of a
call.  A constructor answers with a client or with an error, never both. -/
structure Env where
  influxNew : String → String → String → Except String Ptr
  influxQuery : Ptr → String → GoError
  influxClose : Ptr → GoError
  minioNew : String → String → String → Bool → String → Except String Ptr
  minioListBuckets : Ptr → GoError
  sqlOpen : String → String → Except String Ptr
  sqlPing : Ptr → GoError
  sqlClose : Ptr → GoError
  readInConfig : String → Except String Settings
  unmarshal : Settings → String → Except String config.Config

/-- Five seconds in nanoseconds (`5*time.Second`). -/
def fiveSeconds : Int := 5 * logs.timeSecond

/-- One minute in nanoseconds (`time.Minute`). -/
def timeMinute : Int := 60 * logs.timeSecond

/-- Two's complement wrap-around of a 64 bit signed integer. -/
def wrapInt64 (x : Int) : Int := (x + 2 ^ 63) % 2 ^ 64 - 2 ^ 63

/-! ## package logs: the global logger -/

namespace logs

/-- Go `InitGlobal(cfg, opts...)`. -/
def InitGlobal (cfg : Config) (opts : List ZapOption) (w : World) : GoError × World :=
  let w := w.emit (Event.call "InitGlobal")
  let addr := w.nextAddr
  let w := { w with nextAddr := addr + 1 }
  match New cfg opts addr with
  | (_, some err) => (some err, w)
  | (logger, none) =>
    let w := { w with globalLogger := some logger }
    let w := { w with globalSugar := some { base := logger } }
    let w := w.emit (Event.zapReplaceGlobals logger.addr)
    (none, w)

/-- Go `L()`. -/
def L (w : World) : Option Logger × World :=
  let w := w.emit (Event.call "L")
  match w.globalLogger with
  | none =>
    let w := (InitGlobal DevConfig [] w).2
    (w.globalLogger, w)
  | some l => (some l, w)

/-- Go `S()`. -/
def S (w : World) : Option SugaredLogger × World :=
  let w := w.emit (Event.call "S")
  match w.globalSugar with
  | none =>
    let w := (InitGlobal DevConfig [] w).2
    (w.globalSugar, w)
  | some l => (some l, w)

/-- The statement `logs.L().Info(msg)`: the method faults on a nil logger. -/
def infoViaL (msg : String) (w : World) : Outcome Unit × World :=
  match L w with
  | (some l, w) => (Outcome.ret (), w.emit (Event.logInfo l.addr msg))
  | (none, w) => (Outcome.fault, w)

end logs

/-! ## package influxdb -/

namespace influxdb

/-- Go `InitInfluxDBClient(config)`. -/
def InitInfluxDBClient (env : Env) (config : InfluxDBConfig) (w : World) :
    Outcome (Option Ptr × GoError) × World :=
  let w := w.emit (Event.call "InitInfluxDBClient")
  let w := w.emit (Event.influxNew config.Host config.Token config.Database)
  match env.influxNew config.Host config.Token config.Database with
  | Except.error err => (Outcome.ret (none, some ("创建InfluxDB客户端失败: " ++ err)), w)
  | Except.ok client =>
    let query := "SELECT 1"
    let w := w.emit (Event.influxQuery client fiveSeconds query)
    match env.influxQuery client query with
    | some err => (Outcome.ret (none, some ("InfluxDB连接测试失败: " ++ err)), w)
    | none =>
      match logs.infoViaL "InfluxDB客户端初始化成功" w with
      | (Outcome.fault, w) => (Outcome.fault, w)
      | (Outcome.ret _, w) => (Outcome.ret (some client, none), w)

/-- Go `GetInfluxDBClient(config)`. -/
def GetInfluxDBClient (env : Env) (config : InfluxDBConfig) (w : World) :
    Outcome (Option InfluxDBClient × GoError) × World :=
  let w := w.emit (Event.call "GetInfluxDBClient")
  match w.InfluxDBCli with
  | some cli => (Outcome.ret (some { Client := some cli }, none), w)
  | none =>
    match InitInfluxDBClient env config w with
    | (Outcome.fault, w) => (Outcome.fault, w)
    | (Outcome.ret (_, some err), w) => (Outcome.ret (none, some err), w)
    | (Outcome.ret (client, none), w) =>
      (Outcome.ret (some { Client := client }, none), { w with InfluxDBCli := client })

/-- Go method `(c *InfluxDBClient) Close()`; the receiver may be nil, and
reading `c.Client` through a nil receiver faults. -/
def InfluxDBClient.Close (env : Env) (c : Option InfluxDBClient) (w : World) :
    Outcome GoError × World :=
  let w := w.emit (Event.call "InfluxDBClient.Close")
  match c with
  | none => (Outcome.fault, w)
  | some c =>
    match c.Client with
    | some p => (Outcome.ret (env.influxClose p), w.emit (Event.influxClose p))
    | none => (Outcome.ret none, w)

end influxdb

/-! ## package minio -/

namespace minio

/-- Go `InitMinIOClient(config)`. -/
def InitMinIOClient (env : Env) (config : MinIOConfig) (w : World) :
    Outcome (Option Ptr × GoError) × World :=
  let w := w.emit (Event.call "InitMinIOClient")
  let w := w.emit (Event.minioNew config.Endpoint config.AccessKeyID config.SecretAccessKey
    config.UseSSL config.Region)
  match env.minioNew config.Endpoint config.AccessKeyID config.SecretAccessKey
      config.UseSSL config.Region with
  | Except.error err => (Outcome.ret (none, some ("创建MinIO客户端失败: " ++ err)), w)
  | Except.ok client =>
    let w := w.emit (Event.minioListBuckets client fiveSeconds)
    match env.minioListBuckets client with
    | some err => (Outcome.ret (none, some ("MinIO连接测试失败: " ++ err)), w)
    | none =>
      match logs.infoViaL "MinIO客户端初始化成功" w with
      | (Outcome.fault, w) => (Outcome.fault, w)
      | (Outcome.ret _, w) => (Outcome.ret (some client, none), w)

/-- Go `GetMinIOClient(config)`. -/
def GetMinIOClient (env : Env) (config : MinIOConfig) (w : World) :
    Outcome (Option MinIOClient × GoError) × World :=
  let w := w.emit (Event.call "GetMinIOClient")
  match InitMinIOClient env config w with
  | (Outcome.fault, w) => (Outcome.fault, w)
  | (Outcome.ret (_, some err), w) => (Outcome.ret (none, some err), w)
  | (Outcome.ret (client, none), w) => (Outcome.ret (some { Client := client }, none), w)

end minio

/-! ## package mysql -/

namespace mysql

/-- The data source name built by `fmt.Sprintf` in `InitMysqlClient`. -/
def dsn (config : MysqlCOnfig) : String :=
  config.User ++ ":" ++ config.Password ++ "@tcp(" ++ config.Host ++ ":" ++ toString config.Port
    ++ ")/" ++ config.Database ++ "?charset=" ++ config.Charset ++ "&parseTime=True&loc=Local"

/-- Go `InitMysqlClient(config)`. -/
def InitMysqlClient (env : Env) (config : MysqlCOnfig) (w : World) :
    Outcome (Option Ptr × GoError) × World :=
  let w := w.emit (Event.call "InitMysqlClient")
  let w := w.emit (Event.sqlOpen "mysql" (dsn config))
  match env.sqlOpen "mysql" (dsn config) with
  | Except.error err => (Outcome.ret (none, some ("failed to open mysql connect: " ++ err)), w)
  | Except.ok db =>
    let w := w.emit (Event.sqlSetMaxOpenConns db config.MaxOpenConns)
    let w := w.emit (Event.sqlSetMaxIdleConns db config.MaxIdleConns)
    let w := w.emit (Event.sqlSetConnMaxLifetime db (wrapInt64 (config.MaxLifetime * timeMinute)))
    let w := w.emit (Event.sqlPing db)
    match env.sqlPing db with
    | some err => (Outcome.ret (none, some ("failed to ping mysql server: " ++ err)), w)
    | none =>
      match logs.infoViaL "Mysql客户端初始化成功" w with
      | (Outcome.fault, w) => (Outcome.fault, w)
      | (Outcome.ret _, w) => (Outcome.ret (some db, none), w)

/-- Go `GetMysqlClient(config)`. -/
def GetMysqlClient (env : Env) (config : MysqlCOnfig) (w : World) :
    Outcome (Option MysqlClient × GoError) × World :=
  let w := w.emit (Event.call "GetMysqlClient")
  match w.MysqlCli with
  | some cli => (Outcome.ret (some cli, none), w)
  | none =>
    match InitMysqlClient env config w with
    | (Outcome.fault, w) => (Outcome.fault, w)
    | (Outcome.ret (_, some err), w) => (Outcome.ret (none, some err), w)
    | (Outcome.ret (db, none), w) =>
      let w := { w with MysqlCli := some { Client := db } }
      (Outcome.ret (w.MysqlCli, none), w)

/-- The method `(*sql.DB).Close` of database/sql as called by the repository:
it locks a field of its receiver first, so a nil receiver faults. -/
def sqlDBClose (env : Env) (db : Option Ptr) (w : World) : Outcome GoError × World :=
  let w := w.emit (Event.sqlClose db)
  match db with
  | none => (Outcome.fault, w)
  | some p => (Outcome.ret (env.sqlClose p), w)

/-- Go method `(db *MysqlClient) Close()`; the receiver may be nil. -/
def MysqlClient.Close (env : Env) (db : Option MysqlClient) (w : World) :
    Outcome GoError × World :=
  let w := w.emit (Event.call "MysqlClient.Close")
  match db with
  | some d => sqlDBClose env d.Client w
  | none => (Outcome.ret none, w)

end mysql

/-! ## package config -/

namespace config

/-- Go `InitConfig(path)`. -/
def InitConfig (env : Env) (path : String) (w : World) : (Option Config × GoError) × World :=
  let w := w.emit (Event.call "InitConfig")
  let path := if path = "" then "./config/dev.yaml" else path
  let w := w.emit (Event.viperSetConfigFile path)
  let w := w.emit Event.viperReadInConfig
  match env.readInConfig path with
  | Except.error err => ((none, some ("read config failed: " ++ err)), w)
  | Except.ok settings =>
    let w := w.emit (Event.viperUnmarshal "yaml")
    match env.unmarshal settings "yaml" with
    | Except.error err => ((none, some ("unmarshal config failed: " ++ err)), w)
    | Except.ok cfg => ((some cfg, none), w)

end config

/-! ## package main -/

namespace main

/-- The assignment `AppClient.InfluxDB = h`; it faults when `AppClient` is
nil. -/
def assignInflux (h : Option influxdb.InfluxDBClient) (w : World) : Outcome Unit × World :=
  match w.AppClient with
  | none => (Outcome.fault, w)
  | some app => (Outcome.ret (), { w with AppClient := some { app with InfluxDB := h } })

/-- The assignment `AppClient.MinIO = h`; it faults when `AppClient` is nil. -/
def assignMinio (h : Option minio.MinIOClient) (w : World) : Outcome Unit × World :=
  match w.AppClient with
  | none => (Outcome.fault, w)
  | some app => (Outcome.ret (), { w with AppClient := some { app with MinIO := h } })

/-- The assignment `AppClient.Mysql = h`; it faults when `AppClient` is nil. -/
def assignMysql (h : Option mysql.MysqlClient) (w : World) : Outcome Unit × World :=
  match w.AppClient with
  | none => (Outcome.fault, w)
  | some app => (Outcome.ret (), { w with AppClient := some { app with Mysql := h } })

/-- The end of `InitClient`, from the MySQL acquisition on (lines 41 to 46). -/
def fromMysql (env : Env) (cfg : config.Config) (w : World) : Outcome GoError × World :=
  match mysql.GetMysqlClient env cfg.Mysql w with
  | (Outcome.fault, w) => (Outcome.fault, w)
  | (Outcome.ret (h, err), w) =>
    match assignMysql h w with
    | (Outcome.fault, w) => (Outcome.fault, w)
    | (Outcome.ret _, w) =>
      match err with
      | some err => (Outcome.ret (some err), w)
      | none => (Outcome.ret none, w)

/-- The end of `InitClient`, from the MinIO acquisition on (lines 36 to 46). -/
def fromMinio (env : Env) (cfg : config.Config) (w : World) : Outcome GoError × World :=
  match minio.GetMinIOClient env cfg.MinIO w with
  | (Outcome.fault, w) => (Outcome.fault, w)
  | (Outcome.ret (h, err), w) =>
    match assignMinio h w with
    | (Outcome.fault, w) => (Outcome.fault, w)
    | (Outcome.ret _, w) =>
      match err with
      | some err => (Outcome.ret (some err), w)
      | none => fromMysql env cfg w

/-- The end of `InitClient`, from the InfluxDB acquisition on (lines 31 to
46). -/
def fromInflux (env : Env) (cfg : config.Config) (w : World) : Outcome GoError × World :=
  match influxdb.GetInfluxDBClient env cfg.InfluxDB w with
  | (Outcome.fault, w) => (Outcome.fault, w)
  | (Outcome.ret (h, err), w) =>
    match assignInflux h w with
    | (Outcome.fault, w) => (Outcome.fault, w)
    | (Outcome.ret _, w) =>
      match err with
      | some err => (Outcome.ret (some err), w)
      | none => fromMinio env cfg w

/-- Go `InitClient()`.  Reading a field through a nil `cfg` faults. -/
def InitClient (env : Env) (w : World) : Outcome GoError × World :=
  let w := w.emit (Event.call "InitClient")
  match config.InitConfig env "./config/dev.yaml" w with
  | ((_, some err), w) => (Outcome.ret (some err), w)
  | ((cfg, none), w) =>
    let w := w.emit (Event.fmtPrintln cfg)
    let w := { w with AppClient := some { InfluxDB := none, MinIO := none, Mysql := none } }
    match cfg with
    | none => (Outcome.fault, w)
    | some cfg => fromInflux env cfg w

/-- Go `CloseClient()`: it has no result; both `Close` results are dropped.
Reading a field through a nil `AppClient` faults. -/
def CloseClient (env : Env) (w : World) : Outcome Unit × World :=
  let w := w.emit (Event.call "CloseClient")
  match w.AppClient with
  | none => (Outcome.fault, w)
  | some app =>
    match influxdb.InfluxDBClient.Close env app.InfluxDB w with
    | (Outcome.fault, w) => (Outcome.fault, w)
    | (Outcome.ret _, w) =>
      match w.AppClient with
      | none => (Outcome.fault, w)
      | some app =>
        match mysql.MysqlClient.Close env app.Mysql w with
        | (Outcome.fault, w) => (Outcome.fault, w)
        | (Outcome.ret _, w) => logs.infoViaL "客户端关闭成功" w

end main

/-! ## sample environments -/

/-- An outside world in which every service answers and every close succeeds;
the three vendor clients live at addresses 1, 2 and 3. -/
def Env.allUp : Env :=
  { influxNew := fun _ _ _ => Except.ok 1
    influxQuery := fun _ _ => none
    influxClose := fun _ => none
    minioNew := fun _ _ _ _ _ => Except.ok 2
    minioListBuckets := fun _ => none
    sqlOpen := fun _ _ => Except.ok 3
    sqlPing := fun _ => none
    sqlClose := fun _ => none
    readInConfig := fun _ => Except.ok "settings"
    unmarshal := fun _ _ => Except.ok
      { InfluxDB := { Host := "h", Token := "t", Database := "d" }
        MinIO := { Endpoint := "e", AccessKeyID := "a", SecretAccessKey := "s", UseSSL := false,
                   Region := "r" }
        Mysql := { Host := "m", Port := 3306, User := "u", Password := "p", Database := "d",
                   Charset := "utf8", MaxOpenConns := 10, MaxIdleConns := 5, MaxLifetime := 30 } } }

/-- An outside world like `Env.allUp` at a later time: the vendor
constructors hand out the fresh addresses 11, 12 and 13. -/
def Env.later : Env :=
  { Env.allUp with
    influxNew := fun _ _ _ => Except.ok 11
    minioNew := fun _ _ _ _ _ => Except.ok 12
    sqlOpen := fun _ _ => Except.ok 13 }

/-- An outside world in which no service can be reached and the
configuration file cannot be read. -/
def Env.allDown : Env :=
  { Env.allUp with
    influxNew := fun _ _ _ => Except.error "no route"
    minioNew := fun _ _ _ _ _ => Except.error "no route"
    sqlOpen := fun _ _ => Except.error "no route"
    readInConfig := fun _ => Except.error "no such file" }

/-- An outside world like `Env.allUp` in which InfluxDB cannot be reached. -/
def Env.influxDown : Env :=
  { Env.allUp with influxNew := fun _ _ _ => Except.error "no route" }

/-- An outside world like `Env.allUp` in which both vendor closes report an
error. -/
def Env.closeFails : Env :=
  { Env.allUp with
    influxClose := fun _ => some "influx close failed"
    sqlClose := fun _ => some "sql close failed" }

/-- An outside world like `Env.allUp` in which the configuration file is
read but does not have the expected shape. -/
def Env.badShape : Env :=
  { Env.allUp with unmarshal := fun _ _ => Except.error "expected a map" }

/-- A sample leaf configuration for InfluxDB. -/
def sampleInflux : influxdb.InfluxDBConfig := { Host := "h", Token := "t", Database := "d" }

/-- A second, different leaf configuration for InfluxDB. -/
def otherInflux : influxdb.InfluxDBConfig := { Host := "h2", Token := "t2", Database := "d2" }

/-- A sample leaf configuration for MinIO. -/
def sampleMinio : minio.MinIOConfig :=
  { Endpoint := "e", AccessKeyID := "a", SecretAccessKey := "s", UseSSL := false, Region := "r" }

/-- A sample leaf configuration for MySQL. -/
def sampleMysql : mysql.MysqlCOnfig :=
  { Host := "m", Port := 3306, User := "u", Password := "p", Database := "d", Charset := "utf8",
    MaxOpenConns := 10, MaxIdleConns := 5, MaxLifetime := 30 }

/-- A second, different leaf configuration for MySQL. -/
def otherMysql : mysql.MysqlCOnfig := { sampleMysql with Host := "m2", Port := 3307 }

/-- A state in which only the InfluxDB cache is set, to the client at 7. -/
def World.influxCached : World := { World.init with InfluxDBCli := some 7 }

/-- A state in which only the MySQL cache is set, to a wrapper of the handle
at 9. -/
def World.mysqlCached : World := { World.init with MysqlCli := some { Client := some 9 } }

/-! ## observations used in the statements -/

/-- The package-level variables of a state (everything but the allocator
position and the trace). -/
def World.vars (w : World) :
    Option Ptr × Option mysql.MysqlClient × Option logs.Logger × Option logs.SugaredLogger
      × Option main.Client :=
  (w.InfluxDBCli, w.MysqlCli, w.globalLogger, w.globalSugar, w.AppClient)

/-- The events recorded between state `w` and a later state `w2`. -/
def newEvents (w w2 : World) : List Event := w2.trace.drop w.trace.length

/-- The four steps of `InitClient`, by the name of the function called. -/
def stepNames : List String :=
  ["InitConfig", "GetInfluxDBClient", "GetMinIOClient", "GetMysqlClient"]

/-- The steps of `InitClient` entered in a list of events, in order. -/
def stepsAttempted (t : List Event) : List String :=
  t.filterMap (fun e =>
    match e with
    | Event.call fn => if fn ∈ stepNames then some fn else none
    | _ => none)

/-- The step of `InitClient` whose work an event is: the entry markers of a
step function and of the `Init` function it calls, the vendor calls it makes
and the line it logs on success.  Events of no particular step (the logger
starting up, the printing of the configuration, teardown) have none. -/
def Event.stepOf : Event → Option String
  | Event.call fn =>
    if fn = "InitConfig" then some "InitConfig"
    else if fn = "GetInfluxDBClient" ∨ fn = "InitInfluxDBClient" then some "GetInfluxDBClient"
    else if fn = "GetMinIOClient" ∨ fn = "InitMinIOClient" then some "GetMinIOClient"
    else if fn = "GetMysqlClient" ∨ fn = "InitMysqlClient" then some "GetMysqlClient"
    else none
  | Event.viperSetConfigFile _ => some "InitConfig"
  | Event.viperReadInConfig => some "InitConfig"
  | Event.viperUnmarshal _ => some "InitConfig"
  | Event.influxNew _ _ _ => some "GetInfluxDBClient"
  | Event.influxQuery _ _ _ => some "GetInfluxDBClient"
  | Event.minioNew _ _ _ _ _ => some "GetMinIOClient"
  | Event.minioListBuckets _ _ => some "GetMinIOClient"
  | Event.sqlOpen _ _ => some "GetMysqlClient"
  | Event.sqlSetMaxOpenConns _ _ => some "GetMysqlClient"
  | Event.sqlSetMaxIdleConns _ _ => some "GetMysqlClient"
  | Event.sqlSetConnMaxLifetime _ _ => some "GetMysqlClient"
  | Event.sqlPing _ => some "GetMysqlClient"
  | Event.logInfo _ msg =>
    if msg = "InfluxDB客户端初始化成功" then some "GetInfluxDBClient"
    else if msg = "MinIO客户端初始化成功" then some "GetMinIOClient"
    else if msg = "Mysql客户端初始化成功" then some "GetMysqlClient"
    else none
  | _ => none

/-- The steps whose work appears in a list of events, one entry per event, in
order. -/
def workOf (t : List Event) : List String := t.filterMap Event.stepOf

/-- State `w2` is reached from `w` without touching the client caches or the
holder: `InfluxDBCli`, `MysqlCli` and `AppClient` are the same, and the trace
has grown by events among which no step of `InitClient` is entered. -/
def Quiet (w w2 : World) : Prop :=
  w2.InfluxDBCli = w.InfluxDBCli ∧ w2.MysqlCli = w.MysqlCli ∧ w2.AppClient = w.AppClient ∧
    ∃ t, w2.trace = w.trace ++ t ∧ stepsAttempted t = []

/-- Whether an event is a call of a vendor close. -/
def Event.isClose : Event → Bool
  | Event.influxClose _ => true
  | Event.sqlClose _ => true
  | _ => false

/-- The state in which teardown is meant to run: the one a fully successful
`InitClient` leaves, with every service up. -/
def World.afterInit : World := (main.InitClient Env.allUp World.init).2

/-- Sequential, fail-fast composition, in the words of the specification:
run the named steps in order and stop at the first one that returns an error.
The result is that error (nil when every step succeeds) together with the
names of the steps that were run. -/
def failFast : List (String × GoError) → GoError × List String
  | [] => (none, [])
  | (name, some e) :: _ => (some e, [name])
  | (name, none) :: rest => ((failFast rest).1, name :: (failFast rest).2)

/-- The error result of an acquisition; a fault carries none. -/
def errOf {α : Type} (r : Outcome (α × GoError) × World) : GoError :=
  match r.1 with
  | Outcome.ret (_, e) => e
  | Outcome.fault => none

/-- The four steps of `InitClient` with the error each returns in state `w`;
the three acquisitions are listed only when the configuration was loaded,
since they take their argument from it. -/
def stepResults (env : Env) (w : World) : List (String × GoError) :=
  ("InitConfig", (config.InitConfig env "./config/dev.yaml" w).1.2) ::
    match (config.InitConfig env "./config/dev.yaml" w).1.1 with
    | none => []
    | some cfg =>
      [("GetInfluxDBClient", errOf (influxdb.GetInfluxDBClient env cfg.InfluxDB w)),
       ("GetMinIOClient", errOf (minio.GetMinIOClient env cfg.MinIO w)),
       ("GetMysqlClient", errOf (mysql.GetMysqlClient env cfg.Mysql w))]

/-- Run `logs.L` `n` times in a row and keep the state. -/
def repeatL : Nat → World → World
  | 0, w => w
  | n + 1, w => repeatL n (logs.L w).2

/-! ## the global logger: basic facts -/

theorem InitGlobal_eq (cfg : logs.Config) (opts : List logs.ZapOption) (w : World) :
    logs.InitGlobal cfg opts w =
      (none,
        { w with
          globalLogger := some (logs.New cfg opts w.nextAddr).1
          globalSugar := some { base := (logs.New cfg opts w.nextAddr).1 }
          nextAddr := w.nextAddr + 1
          trace := w.trace ++ [Event.call "InitGlobal", Event.zapReplaceGlobals w.nextAddr] }) := by
  simp [logs.InitGlobal, logs.New, World.emit]

theorem L_of_some (w : World) (l : logs.Logger) (h : w.globalLogger = some l) :
    logs.L w = (some l, w.emit (Event.call "L")) := by
  simp [logs.L, World.emit, h]

theorem L_of_none (w : World) (h : w.globalLogger = none) :
    logs.L w =
      (some (logs.New logs.DevConfig [] w.nextAddr).1,
        { w with
          globalLogger := some (logs.New logs.DevConfig [] w.nextAddr).1
          globalSugar := some { base := (logs.New logs.DevConfig [] w.nextAddr).1 }
          nextAddr := w.nextAddr + 1
          trace := w.trace ++
            [Event.call "L", Event.call "InitGlobal", Event.zapReplaceGlobals w.nextAddr] }) := by
  simp [logs.L, World.emit, h, InitGlobal_eq]

/-! ## frames -/

theorem stepsAttempted_append (t u : List Event) :
    stepsAttempted (t ++ u) = stepsAttempted t ++ stepsAttempted u := by
  simp [stepsAttempted, List.filterMap_append]

@[simp] theorem stepsAttempted_nil : stepsAttempted [] = [] := rfl

@[simp] theorem stepsAttempted_cons_InitConfig (t : List Event) :
    stepsAttempted (Event.call "InitConfig" :: t) = "InitConfig" :: stepsAttempted t := rfl

@[simp] theorem stepsAttempted_cons_GetInfluxDBClient (t : List Event) :
    stepsAttempted (Event.call "GetInfluxDBClient" :: t) = "GetInfluxDBClient" :: stepsAttempted t := rfl

@[simp] theorem stepsAttempted_cons_GetMinIOClient (t : List Event) :
    stepsAttempted (Event.call "GetMinIOClient" :: t) = "GetMinIOClient" :: stepsAttempted t := rfl

@[simp] theorem stepsAttempted_cons_GetMysqlClient (t : List Event) :
    stepsAttempted (Event.call "GetMysqlClient" :: t) = "GetMysqlClient" :: stepsAttempted t := rfl

@[simp] theorem stepsAttempted_cons_InitClient (t : List Event) :
    stepsAttempted (Event.call "InitClient" :: t) = stepsAttempted t := rfl

@[simp] theorem stepsAttempted_cons_InitInfluxDBClient (t : List Event) :
    stepsAttempted (Event.call "InitInfluxDBClient" :: t) = stepsAttempted t := rfl

@[simp] theorem stepsAttempted_cons_InitMinIOClient (t : List Event) :
    stepsAttempted (Event.call "InitMinIOClient" :: t) = stepsAttempted t := rfl

@[simp] theorem stepsAttempted_cons_InitMysqlClient (t : List Event) :
    stepsAttempted (Event.call "InitMysqlClient" :: t) = stepsAttempted t := rfl

@[simp] theorem stepsAttempted_cons_L (t : List Event) :
    stepsAttempted (Event.call "L" :: t) = stepsAttempted t := rfl

@[simp] theorem stepsAttempted_cons_S (t : List Event) :
    stepsAttempted (Event.call "S" :: t) = stepsAttempted t := rfl

@[simp] theorem stepsAttempted_cons_InitGlobal (t : List Event) :
    stepsAttempted (Event.call "InitGlobal" :: t) = stepsAttempted t := rfl

@[simp] theorem stepsAttempted_cons_InfluxDBClient_Close (t : List Event) :
    stepsAttempted (Event.call "InfluxDBClient.Close" :: t) = stepsAttempted t := rfl

@[simp] theorem stepsAttempted_cons_MysqlClient_Close (t : List Event) :
    stepsAttempted (Event.call "MysqlClient.Close" :: t) = stepsAttempted t := rfl

@[simp] theorem stepsAttempted_cons_CloseClient (t : List Event) :
    stepsAttempted (Event.call "CloseClient" :: t) = stepsAttempted t := rfl

@[simp] theorem stepsAttempted_cons_influxNew (t : List Event) : ∀ a b c ,
    stepsAttempted ((Event.influxNew a b c) :: t) = stepsAttempted t := fun _ _ _ => rfl

@[simp] theorem stepsAttempted_cons_influxQuery (t : List Event) : ∀ a b c ,
    stepsAttempted ((Event.influxQuery a b c) :: t) = stepsAttempted t := fun _ _ _ => rfl

@[simp] theorem stepsAttempted_cons_influxClose (t : List Event) : ∀ a ,
    stepsAttempted ((Event.influxClose a) :: t) = stepsAttempted t := fun _ => rfl

@[simp] theorem stepsAttempted_cons_minioNew (t : List Event) : ∀ a b c d e ,
    stepsAttempted ((Event.minioNew a b c d e) :: t) = stepsAttempted t := fun _ _ _ _ _ => rfl

@[simp] theorem stepsAttempted_cons_minioListBuckets (t : List Event) : ∀ a b ,
    stepsAttempted ((Event.minioListBuckets a b) :: t) = stepsAttempted t := fun _ _ => rfl

@[simp] theorem stepsAttempted_cons_sqlOpen (t : List Event) : ∀ a b ,
    stepsAttempted ((Event.sqlOpen a b) :: t) = stepsAttempted t := fun _ _ => rfl

@[simp] theorem stepsAttempted_cons_sqlSetMaxOpenConns (t : List Event) : ∀ a b ,
    stepsAttempted ((Event.sqlSetMaxOpenConns a b) :: t) = stepsAttempted t := fun _ _ => rfl

@[simp] theorem stepsAttempted_cons_sqlSetMaxIdleConns (t : List Event) : ∀ a b ,
    stepsAttempted ((Event.sqlSetMaxIdleConns a b) :: t) = stepsAttempted t := fun _ _ => rfl

@[simp] theorem stepsAttempted_cons_sqlSetConnMaxLifetime (t : List Event) : ∀ a b ,
    stepsAttempted ((Event.sqlSetConnMaxLifetime a b) :: t) = stepsAttempted t := fun _ _ => rfl

@[simp] theorem stepsAttempted_cons_sqlPing (t : List Event) : ∀ a ,
    stepsAttempted ((Event.sqlPing a) :: t) = stepsAttempted t := fun _ => rfl

@[simp] theorem stepsAttempted_cons_sqlClose (t : List Event) : ∀ a ,
    stepsAttempted ((Event.sqlClose a) :: t) = stepsAttempted t := fun _ => rfl

@[simp] theorem stepsAttempted_cons_viperSetConfigFile (t : List Event) : ∀ a ,
    stepsAttempted ((Event.viperSetConfigFile a) :: t) = stepsAttempted t := fun _ => rfl

@[simp] theorem stepsAttempted_cons_viperReadInConfig (t : List Event) :
    stepsAttempted (Event.viperReadInConfig :: t) = stepsAttempted t := rfl

@[simp] theorem stepsAttempted_cons_viperUnmarshal (t : List Event) : ∀ a ,
    stepsAttempted ((Event.viperUnmarshal a) :: t) = stepsAttempted t := fun _ => rfl

@[simp] theorem stepsAttempted_cons_fmtPrintln (t : List Event) : ∀ a ,
    stepsAttempted ((Event.fmtPrintln a) :: t) = stepsAttempted t := fun _ => rfl

@[simp] theorem stepsAttempted_cons_zapReplaceGlobals (t : List Event) : ∀ a ,
    stepsAttempted ((Event.zapReplaceGlobals a) :: t) = stepsAttempted t := fun _ => rfl

@[simp] theorem stepsAttempted_cons_logInfo (t : List Event) : ∀ a b ,
    stepsAttempted ((Event.logInfo a b) :: t) = stepsAttempted t := fun _ _ => rfl

theorem newEvents_of_trace (w w2 : World) (t : List Event) (h : w2.trace = w.trace ++ t) :
    newEvents w w2 = t := by
  simp [newEvents, h]

theorem infoViaL_ret (msg : String) (w : World) :
    ∃ w2, logs.infoViaL msg w = (Outcome.ret (), w2) ∧ Quiet w w2 := by
  cases h : w.globalLogger with
  | none =>
    refine ⟨(logs.infoViaL msg w).2, ?_, ?_⟩
    · simp only [logs.infoViaL, L_of_none w h]
    · simp only [logs.infoViaL, L_of_none w h, World.emit]
      exact ⟨rfl, rfl, rfl, _, List.append_assoc _ _ _, by simp [stepsAttempted, stepNames]⟩
  | some l =>
    refine ⟨(logs.infoViaL msg w).2, ?_, ?_⟩
    · simp only [logs.infoViaL, L_of_some w l h]
    · simp only [logs.infoViaL, L_of_some w l h, World.emit]
      exact ⟨rfl, rfl, rfl, _, List.append_assoc _ _ _, by simp [stepsAttempted, stepNames]⟩

@[simp] theorem emit_InfluxDBCli (w : World) (e : Event) : (w.emit e).InfluxDBCli = w.InfluxDBCli := rfl

@[simp] theorem emit_MysqlCli (w : World) (e : Event) : (w.emit e).MysqlCli = w.MysqlCli := rfl

@[simp] theorem emit_AppClient (w : World) (e : Event) : (w.emit e).AppClient = w.AppClient := rfl

@[simp] theorem emit_globalLogger (w : World) (e : Event) :
    (w.emit e).globalLogger = w.globalLogger := rfl

@[simp] theorem emit_globalSugar (w : World) (e : Event) :
    (w.emit e).globalSugar = w.globalSugar := rfl

@[simp] theorem emit_nextAddr (w : World) (e : Event) : (w.emit e).nextAddr = w.nextAddr := rfl

@[simp] theorem emit_trace (w : World) (e : Event) : (w.emit e).trace = w.trace ++ [e] := rfl

@[simp] theorem emit_vars (w : World) (e : Event) : (w.emit e).vars = w.vars := rfl

/-! ## InfluxDB acquisition: the four paths -/

theorem InitInflux_newFails (env : Env) (cfg : influxdb.InfluxDBConfig) (w : World) (e : String)
    (hn : env.influxNew cfg.Host cfg.Token cfg.Database = Except.error e) :
    influxdb.InitInfluxDBClient env cfg w =
      (Outcome.ret (none, some ("创建InfluxDB客户端失败: " ++ e)),
        (w.emit (Event.call "InitInfluxDBClient")).emit
          (Event.influxNew cfg.Host cfg.Token cfg.Database)) := by
  simp only [influxdb.InitInfluxDBClient, hn]

theorem InitInflux_probeFails (env : Env) (cfg : influxdb.InfluxDBConfig) (w : World) (p : Ptr)
    (e : String) (hn : env.influxNew cfg.Host cfg.Token cfg.Database = Except.ok p)
    (hq : env.influxQuery p "SELECT 1" = some e) :
    influxdb.InitInfluxDBClient env cfg w =
      (Outcome.ret (none, some ("InfluxDB连接测试失败: " ++ e)),
        ((w.emit (Event.call "InitInfluxDBClient")).emit
          (Event.influxNew cfg.Host cfg.Token cfg.Database)).emit
          (Event.influxQuery p fiveSeconds "SELECT 1")) := by
  simp only [influxdb.InitInfluxDBClient, hn, hq]

theorem InitInflux_fresh (env : Env) (cfg : influxdb.InfluxDBConfig) (w : World) (p : Ptr)
    (hn : env.influxNew cfg.Host cfg.Token cfg.Database = Except.ok p)
    (hq : env.influxQuery p "SELECT 1" = none) :
    ∃ w2, influxdb.InitInfluxDBClient env cfg w = (Outcome.ret (some p, none), w2) ∧
      Quiet (((w.emit (Event.call "InitInfluxDBClient")).emit
          (Event.influxNew cfg.Host cfg.Token cfg.Database)).emit
          (Event.influxQuery p fiveSeconds "SELECT 1")) w2 := by
  obtain ⟨w2, hw2, hq2⟩ := infoViaL_ret "InfluxDB客户端初始化成功"
    (((w.emit (Event.call "InitInfluxDBClient")).emit
          (Event.influxNew cfg.Host cfg.Token cfg.Database)).emit
          (Event.influxQuery p fiveSeconds "SELECT 1"))
  exact ⟨w2, by simp only [influxdb.InitInfluxDBClient, hn, hq, hw2], hq2⟩

theorem GetInflux_cached (env : Env) (cfg : influxdb.InfluxDBConfig) (w : World) (p : Ptr)
    (h : w.InfluxDBCli = some p) :
    influxdb.GetInfluxDBClient env cfg w =
      (Outcome.ret (some { Client := some p }, none), w.emit (Event.call "GetInfluxDBClient")) := by
  simp only [influxdb.GetInfluxDBClient, emit_InfluxDBCli, h]

theorem GetInflux_newFails (env : Env) (cfg : influxdb.InfluxDBConfig) (w : World) (e : String)
    (h : w.InfluxDBCli = none) (hn : env.influxNew cfg.Host cfg.Token cfg.Database = Except.error e) :
    influxdb.GetInfluxDBClient env cfg w =
      (Outcome.ret (none, some ("创建InfluxDB客户端失败: " ++ e)),
        ((w.emit (Event.call "GetInfluxDBClient")).emit (Event.call "InitInfluxDBClient")).emit
          (Event.influxNew cfg.Host cfg.Token cfg.Database)) := by
  simp only [influxdb.GetInfluxDBClient, emit_InfluxDBCli, h, InitInflux_newFails env cfg _ e hn]

theorem GetInflux_probeFails (env : Env) (cfg : influxdb.InfluxDBConfig) (w : World) (p : Ptr)
    (e : String) (h : w.InfluxDBCli = none)
    (hn : env.influxNew cfg.Host cfg.Token cfg.Database = Except.ok p)
    (hq : env.influxQuery p "SELECT 1" = some e) :
    influxdb.GetInfluxDBClient env cfg w =
      (Outcome.ret (none, some ("InfluxDB连接测试失败: " ++ e)),
        (((w.emit (Event.call "GetInfluxDBClient")).emit (Event.call "InitInfluxDBClient")).emit
          (Event.influxNew cfg.Host cfg.Token cfg.Database)).emit
          (Event.influxQuery p fiveSeconds "SELECT 1")) := by
  simp only [influxdb.GetInfluxDBClient, emit_InfluxDBCli, h,
    InitInflux_probeFails env cfg _ p e hn hq]

theorem GetInflux_fresh (env : Env) (cfg : influxdb.InfluxDBConfig) (w : World) (p : Ptr)
    (h : w.InfluxDBCli = none)
    (hn : env.influxNew cfg.Host cfg.Token cfg.Database = Except.ok p)
    (hq : env.influxQuery p "SELECT 1" = none) :
    ∃ w2 w3, influxdb.GetInfluxDBClient env cfg w =
        (Outcome.ret (some { Client := some p }, none), { w2 with InfluxDBCli := some p }) ∧
      Quiet w3 w2 ∧
      w3 = (((w.emit (Event.call "GetInfluxDBClient")).emit (Event.call "InitInfluxDBClient")).emit
          (Event.influxNew cfg.Host cfg.Token cfg.Database)).emit
          (Event.influxQuery p fiveSeconds "SELECT 1") := by
  obtain ⟨w2, hw2, hq2⟩ := InitInflux_fresh env cfg (w.emit (Event.call "GetInfluxDBClient")) p hn hq
  exact ⟨w2, _, by simp only [influxdb.GetInfluxDBClient, emit_InfluxDBCli, h, hw2], hq2, rfl⟩

theorem GetInflux_step (env : Env) (cfg : influxdb.InfluxDBConfig) (w : World) :
    ∃ h e w2, influxdb.GetInfluxDBClient env cfg w = (Outcome.ret (h, e), w2) ∧
      (e = none → ∃ p, h = some { Client := some p } ∧ w2.InfluxDBCli = some p) ∧
      (e ≠ none → h = none ∧ w2.InfluxDBCli = none ∧ w.InfluxDBCli = none) ∧
      w2.MysqlCli = w.MysqlCli ∧ w2.AppClient = w.AppClient ∧
      ∃ t, w2.trace = w.trace ++ t ∧ stepsAttempted t = ["GetInfluxDBClient"] := by
  cases h : w.InfluxDBCli with
  | some p =>
    refine ⟨_, _, _, GetInflux_cached env cfg w p h, fun _ => ⟨p, rfl, by simpa using h⟩,
      fun hne => absurd rfl hne, rfl, rfl, _, rfl, ?_⟩
    simp
  | none =>
    cases hn : env.influxNew cfg.Host cfg.Token cfg.Database with
    | error e =>
      refine ⟨_, _, _, GetInflux_newFails env cfg w e h hn, fun he => by simp at he,
        fun _ => ⟨rfl, by simpa using h, rfl⟩, rfl, rfl,
        [Event.call "GetInfluxDBClient", Event.call "InitInfluxDBClient",
          Event.influxNew cfg.Host cfg.Token cfg.Database], ?_, ?_⟩
      · simp
      · simp
    | ok p =>
      cases hq : env.influxQuery p "SELECT 1" with
      | some e =>
        refine ⟨_, _, _, GetInflux_probeFails env cfg w p e h hn hq, fun he => by simp at he,
          fun _ => ⟨rfl, by simpa using h, rfl⟩, rfl, rfl,
          [Event.call "GetInfluxDBClient", Event.call "InitInfluxDBClient",
            Event.influxNew cfg.Host cfg.Token cfg.Database,
            Event.influxQuery p fiveSeconds "SELECT 1"], ?_, ?_⟩
        · simp
        · simp
      | none =>
        obtain ⟨w2, w3, hg, ⟨_, hb, hc, t, ht, hs⟩, rfl⟩ := GetInflux_fresh env cfg w p h hn hq
        refine ⟨_, _, _, hg, fun _ => ⟨p, rfl, rfl⟩, fun hne => absurd rfl hne, ?_, ?_,
          [Event.call "GetInfluxDBClient", Event.call "InitInfluxDBClient",
            Event.influxNew cfg.Host cfg.Token cfg.Database,
            Event.influxQuery p fiveSeconds "SELECT 1"] ++ t, ?_, ?_⟩
        · simpa using hb
        · simpa using hc
        · show w2.trace = _
          rw [ht]; simp
        · rw [stepsAttempted_append, hs]; simp

theorem GetInflux_err_congr (env : Env) (cfg : influxdb.InfluxDBConfig) (w w0 : World)
    (h : w.InfluxDBCli = w0.InfluxDBCli) :
    errOf (influxdb.GetInfluxDBClient env cfg w) = errOf (influxdb.GetInfluxDBClient env cfg w0) := by
  cases hc : w.InfluxDBCli with
  | some p =>
    rw [GetInflux_cached env cfg w p hc, GetInflux_cached env cfg w0 p (h ▸ hc)]; rfl
  | none =>
    have hc0 : w0.InfluxDBCli = none := h ▸ hc
    cases hn : env.influxNew cfg.Host cfg.Token cfg.Database with
    | error e =>
      rw [GetInflux_newFails env cfg w e hc hn, GetInflux_newFails env cfg w0 e hc0 hn]; rfl
    | ok p =>
      cases hq : env.influxQuery p "SELECT 1" with
      | some e =>
        rw [GetInflux_probeFails env cfg w p e hc hn hq,
          GetInflux_probeFails env cfg w0 p e hc0 hn hq]; rfl
      | none =>
        obtain ⟨_, _, hg, _⟩ := GetInflux_fresh env cfg w p hc hn hq
        obtain ⟨_, _, hg0, _⟩ := GetInflux_fresh env cfg w0 p hc0 hn hq
        rw [hg, hg0]; rfl

/-! ## MySQL acquisition: the four paths -/

theorem InitMysql_openFails (env : Env) (cfg : mysql.MysqlCOnfig) (w : World) (e : String)
    (hn : env.sqlOpen "mysql" (mysql.dsn cfg) = Except.error e) :
    mysql.InitMysqlClient env cfg w =
      (Outcome.ret (none, some ("failed to open mysql connect: " ++ e)),
        (w.emit (Event.call "InitMysqlClient")).emit (Event.sqlOpen "mysql" (mysql.dsn cfg))) := by
  simp only [mysql.InitMysqlClient, hn]

theorem InitMysql_pingFails (env : Env) (cfg : mysql.MysqlCOnfig) (w : World) (db : Ptr)
    (e : String) (hn : env.sqlOpen "mysql" (mysql.dsn cfg) = Except.ok db)
    (hq : env.sqlPing db = some e) :
    mysql.InitMysqlClient env cfg w =
      (Outcome.ret (none, some ("failed to ping mysql server: " ++ e)),
        ((((((w.emit (Event.call "InitMysqlClient")).emit
          (Event.sqlOpen "mysql" (mysql.dsn cfg))).emit
          (Event.sqlSetMaxOpenConns db cfg.MaxOpenConns)).emit
          (Event.sqlSetMaxIdleConns db cfg.MaxIdleConns)).emit
          (Event.sqlSetConnMaxLifetime db (wrapInt64 (cfg.MaxLifetime * timeMinute)))).emit
          (Event.sqlPing db))) := by
  simp only [mysql.InitMysqlClient, hn, hq]

theorem InitMysql_fresh (env : Env) (cfg : mysql.MysqlCOnfig) (w : World) (db : Ptr)
    (hn : env.sqlOpen "mysql" (mysql.dsn cfg) = Except.ok db) (hq : env.sqlPing db = none) :
    ∃ w2, mysql.InitMysqlClient env cfg w = (Outcome.ret (some db, none), w2) ∧
      Quiet ((((((w.emit (Event.call "InitMysqlClient")).emit
          (Event.sqlOpen "mysql" (mysql.dsn cfg))).emit
          (Event.sqlSetMaxOpenConns db cfg.MaxOpenConns)).emit
          (Event.sqlSetMaxIdleConns db cfg.MaxIdleConns)).emit
          (Event.sqlSetConnMaxLifetime db (wrapInt64 (cfg.MaxLifetime * timeMinute)))).emit
          (Event.sqlPing db)) w2 := by
  obtain ⟨w2, hw2, hq2⟩ := infoViaL_ret "Mysql客户端初始化成功"
    ((((((w.emit (Event.call "InitMysqlClient")).emit
          (Event.sqlOpen "mysql" (mysql.dsn cfg))).emit
          (Event.sqlSetMaxOpenConns db cfg.MaxOpenConns)).emit
          (Event.sqlSetMaxIdleConns db cfg.MaxIdleConns)).emit
          (Event.sqlSetConnMaxLifetime db (wrapInt64 (cfg.MaxLifetime * timeMinute)))).emit
          (Event.sqlPing db))
  exact ⟨w2, by simp only [mysql.InitMysqlClient, hn, hq, hw2], hq2⟩

theorem GetMysql_cached (env : Env) (cfg : mysql.MysqlCOnfig) (w : World) (c : mysql.MysqlClient)
    (h : w.MysqlCli = some c) :
    mysql.GetMysqlClient env cfg w =
      (Outcome.ret (some c, none), w.emit (Event.call "GetMysqlClient")) := by
  simp only [mysql.GetMysqlClient, emit_MysqlCli, h]

theorem GetMysql_openFails (env : Env) (cfg : mysql.MysqlCOnfig) (w : World) (e : String)
    (h : w.MysqlCli = none) (hn : env.sqlOpen "mysql" (mysql.dsn cfg) = Except.error e) :
    mysql.GetMysqlClient env cfg w =
      (Outcome.ret (none, some ("failed to open mysql connect: " ++ e)),
        ((w.emit (Event.call "GetMysqlClient")).emit (Event.call "InitMysqlClient")).emit
          (Event.sqlOpen "mysql" (mysql.dsn cfg))) := by
  simp only [mysql.GetMysqlClient, emit_MysqlCli, h, InitMysql_openFails env cfg _ e hn]

theorem GetMysql_pingFails (env : Env) (cfg : mysql.MysqlCOnfig) (w : World) (db : Ptr)
    (e : String) (h : w.MysqlCli = none)
    (hn : env.sqlOpen "mysql" (mysql.dsn cfg) = Except.ok db) (hq : env.sqlPing db = some e) :
    mysql.GetMysqlClient env cfg w =
      (Outcome.ret (none, some ("failed to ping mysql server: " ++ e)),
        (((((((w.emit (Event.call "GetMysqlClient")).emit (Event.call "InitMysqlClient")).emit
          (Event.sqlOpen "mysql" (mysql.dsn cfg))).emit
          (Event.sqlSetMaxOpenConns db cfg.MaxOpenConns)).emit
          (Event.sqlSetMaxIdleConns db cfg.MaxIdleConns)).emit
          (Event.sqlSetConnMaxLifetime db (wrapInt64 (cfg.MaxLifetime * timeMinute)))).emit
          (Event.sqlPing db))) := by
  simp only [mysql.GetMysqlClient, emit_MysqlCli, h, InitMysql_pingFails env cfg _ db e hn hq]

theorem GetMysql_fresh (env : Env) (cfg : mysql.MysqlCOnfig) (w : World) (db : Ptr)
    (h : w.MysqlCli = none)
    (hn : env.sqlOpen "mysql" (mysql.dsn cfg) = Except.ok db) (hq : env.sqlPing db = none) :
    ∃ w2 w3, mysql.GetMysqlClient env cfg w =
        (Outcome.ret (some { Client := some db }, none),
          { w2 with MysqlCli := some { Client := some db } }) ∧
      Quiet w3 w2 ∧
      w3 = (((((((w.emit (Event.call "GetMysqlClient")).emit (Event.call "InitMysqlClient")).emit
          (Event.sqlOpen "mysql" (mysql.dsn cfg))).emit
          (Event.sqlSetMaxOpenConns db cfg.MaxOpenConns)).emit
          (Event.sqlSetMaxIdleConns db cfg.MaxIdleConns)).emit
          (Event.sqlSetConnMaxLifetime db (wrapInt64 (cfg.MaxLifetime * timeMinute)))).emit
          (Event.sqlPing db)) := by
  obtain ⟨w2, hw2, hq2⟩ := InitMysql_fresh env cfg (w.emit (Event.call "GetMysqlClient")) db hn hq
  exact ⟨w2, _, by simp only [mysql.GetMysqlClient, emit_MysqlCli, h, hw2], hq2, rfl⟩

theorem GetMysql_step (env : Env) (cfg : mysql.MysqlCOnfig) (w : World) :
    ∃ h e w2, mysql.GetMysqlClient env cfg w = (Outcome.ret (h, e), w2) ∧
      (e = none → ∃ c, h = some c ∧ w2.MysqlCli = some c) ∧
      (e ≠ none → h = none ∧ w2.MysqlCli = none ∧ w.MysqlCli = none) ∧
      w2.InfluxDBCli = w.InfluxDBCli ∧ w2.AppClient = w.AppClient ∧
      ∃ t, w2.trace = w.trace ++ t ∧ stepsAttempted t = ["GetMysqlClient"] := by
  cases h : w.MysqlCli with
  | some c =>
    refine ⟨_, _, _, GetMysql_cached env cfg w c h, fun _ => ⟨c, rfl, by simpa using h⟩,
      fun hne => absurd rfl hne, rfl, rfl, [Event.call "GetMysqlClient"], rfl, ?_⟩
    simp
  | none =>
    cases hn : env.sqlOpen "mysql" (mysql.dsn cfg) with
    | error e =>
      refine ⟨_, _, _, GetMysql_openFails env cfg w e h hn, fun he => (by cases he),
        fun _ => ⟨rfl, by simpa using h, rfl⟩, by simp, by simp,
        [Event.call "GetMysqlClient", Event.call "InitMysqlClient",
          Event.sqlOpen "mysql" (mysql.dsn cfg)], ?_, ?_⟩
      · simp
      · simp
    | ok db =>
      cases hq : env.sqlPing db with
      | some e =>
        refine ⟨_, _, _, GetMysql_pingFails env cfg w db e h hn hq, fun he => (by cases he),
          fun _ => ⟨rfl, by simpa using h, rfl⟩, by simp, by simp,
          [Event.call "GetMysqlClient", Event.call "InitMysqlClient",
            Event.sqlOpen "mysql" (mysql.dsn cfg), Event.sqlSetMaxOpenConns db cfg.MaxOpenConns,
            Event.sqlSetMaxIdleConns db cfg.MaxIdleConns,
            Event.sqlSetConnMaxLifetime db (wrapInt64 (cfg.MaxLifetime * timeMinute)),
            Event.sqlPing db], ?_, ?_⟩
        · simp
        · simp
      | none =>
        obtain ⟨w2, w3, hg, ⟨ha, _, hc, t, ht, hs⟩, rfl⟩ := GetMysql_fresh env cfg w db h hn hq
        refine ⟨_, _, _, hg, fun _ => ⟨_, rfl, rfl⟩, fun hne => absurd rfl hne, ?_, ?_,
          [Event.call "GetMysqlClient", Event.call "InitMysqlClient",
            Event.sqlOpen "mysql" (mysql.dsn cfg), Event.sqlSetMaxOpenConns db cfg.MaxOpenConns,
            Event.sqlSetMaxIdleConns db cfg.MaxIdleConns,
            Event.sqlSetConnMaxLifetime db (wrapInt64 (cfg.MaxLifetime * timeMinute)),
            Event.sqlPing db] ++ t, ?_, ?_⟩
        · simpa using ha
        · simpa using hc
        · show w2.trace = _
          rw [ht]; simp
        · rw [stepsAttempted_append, hs]; simp

theorem GetMysql_err_congr (env : Env) (cfg : mysql.MysqlCOnfig) (w w0 : World)
    (h : w.MysqlCli = w0.MysqlCli) :
    errOf (mysql.GetMysqlClient env cfg w) = errOf (mysql.GetMysqlClient env cfg w0) := by
  cases hc : w.MysqlCli with
  | some c =>
    rw [GetMysql_cached env cfg w c hc, GetMysql_cached env cfg w0 c (h ▸ hc)]; rfl
  | none =>
    have hc0 : w0.MysqlCli = none := h ▸ hc
    cases hn : env.sqlOpen "mysql" (mysql.dsn cfg) with
    | error e =>
      rw [GetMysql_openFails env cfg w e hc hn, GetMysql_openFails env cfg w0 e hc0 hn]; rfl
    | ok db =>
      cases hq : env.sqlPing db with
      | some e =>
        rw [GetMysql_pingFails env cfg w db e hc hn hq,
          GetMysql_pingFails env cfg w0 db e hc0 hn hq]; rfl
      | none =>
        obtain ⟨_, _, hg, _⟩ := GetMysql_fresh env cfg w db hc hn hq
        obtain ⟨_, _, hg0, _⟩ := GetMysql_fresh env cfg w0 db hc0 hn hq
        rw [hg, hg0]; rfl

/-! ## MinIO acquisition: the three paths -/

theorem GetMinIO_newFails (env : Env) (cfg : minio.MinIOConfig) (w : World) (e : String)
    (hn : env.minioNew cfg.Endpoint cfg.AccessKeyID cfg.SecretAccessKey cfg.UseSSL cfg.Region
      = Except.error e) :
    minio.GetMinIOClient env cfg w =
      (Outcome.ret (none, some ("创建MinIO客户端失败: " ++ e)),
        ((w.emit (Event.call "GetMinIOClient")).emit (Event.call "InitMinIOClient")).emit
          (Event.minioNew cfg.Endpoint cfg.AccessKeyID cfg.SecretAccessKey cfg.UseSSL
            cfg.Region)) := by
  simp only [minio.GetMinIOClient, minio.InitMinIOClient, hn]

theorem GetMinIO_probeFails (env : Env) (cfg : minio.MinIOConfig) (w : World) (p : Ptr)
    (e : String)
    (hn : env.minioNew cfg.Endpoint cfg.AccessKeyID cfg.SecretAccessKey cfg.UseSSL cfg.Region
      = Except.ok p)
    (hq : env.minioListBuckets p = some e) :
    minio.GetMinIOClient env cfg w =
      (Outcome.ret (none, some ("MinIO连接测试失败: " ++ e)),
        (((w.emit (Event.call "GetMinIOClient")).emit (Event.call "InitMinIOClient")).emit
          (Event.minioNew cfg.Endpoint cfg.AccessKeyID cfg.SecretAccessKey cfg.UseSSL
            cfg.Region)).emit (Event.minioListBuckets p fiveSeconds)) := by
  simp only [minio.GetMinIOClient, minio.InitMinIOClient, hn, hq]

theorem GetMinIO_fresh (env : Env) (cfg : minio.MinIOConfig) (w : World) (p : Ptr)
    (hn : env.minioNew cfg.Endpoint cfg.AccessKeyID cfg.SecretAccessKey cfg.UseSSL cfg.Region
      = Except.ok p)
    (hq : env.minioListBuckets p = none) :
    ∃ w2, minio.GetMinIOClient env cfg w = (Outcome.ret (some { Client := some p }, none), w2) ∧
      Quiet ((((w.emit (Event.call "GetMinIOClient")).emit (Event.call "InitMinIOClient")).emit
          (Event.minioNew cfg.Endpoint cfg.AccessKeyID cfg.SecretAccessKey cfg.UseSSL
            cfg.Region)).emit (Event.minioListBuckets p fiveSeconds)) w2 := by
  obtain ⟨w2, hw2, hq2⟩ := infoViaL_ret "MinIO客户端初始化成功"
    ((((w.emit (Event.call "GetMinIOClient")).emit (Event.call "InitMinIOClient")).emit
          (Event.minioNew cfg.Endpoint cfg.AccessKeyID cfg.SecretAccessKey cfg.UseSSL
            cfg.Region)).emit (Event.minioListBuckets p fiveSeconds))
  exact ⟨w2, by simp only [minio.GetMinIOClient, minio.InitMinIOClient, hn, hq, hw2], hq2⟩

theorem GetMinIO_step (env : Env) (cfg : minio.MinIOConfig) (w : World) :
    ∃ h e w2, minio.GetMinIOClient env cfg w = (Outcome.ret (h, e), w2) ∧
      (e = none → ∃ c, h = some c) ∧
      w2.InfluxDBCli = w.InfluxDBCli ∧ w2.MysqlCli = w.MysqlCli ∧ w2.AppClient = w.AppClient ∧
      ∃ t, w2.trace = w.trace ++ t ∧ stepsAttempted t = ["GetMinIOClient"] := by
  cases hn : env.minioNew cfg.Endpoint cfg.AccessKeyID cfg.SecretAccessKey cfg.UseSSL
      cfg.Region with
  | error e =>
    refine ⟨_, _, _, GetMinIO_newFails env cfg w e hn, fun he => (by cases he), by simp, by simp, by simp,
      [Event.call "GetMinIOClient", Event.call "InitMinIOClient",
        Event.minioNew cfg.Endpoint cfg.AccessKeyID cfg.SecretAccessKey cfg.UseSSL cfg.Region],
      ?_, ?_⟩
    · simp
    · simp
  | ok p =>
    cases hq : env.minioListBuckets p with
    | some e =>
      refine ⟨_, _, _, GetMinIO_probeFails env cfg w p e hn hq, fun he => (by cases he),
        by simp, by simp, by simp,
        [Event.call "GetMinIOClient", Event.call "InitMinIOClient",
          Event.minioNew cfg.Endpoint cfg.AccessKeyID cfg.SecretAccessKey cfg.UseSSL cfg.Region,
          Event.minioListBuckets p fiveSeconds], ?_, ?_⟩
      · simp
      · simp
    | none =>
      obtain ⟨w2, hg, ha, hb, hc, t, ht, hs⟩ := GetMinIO_fresh env cfg w p hn hq
      refine ⟨_, _, _, hg, fun _ => ⟨_, rfl⟩, ?_, ?_, ?_,
        [Event.call "GetMinIOClient", Event.call "InitMinIOClient",
          Event.minioNew cfg.Endpoint cfg.AccessKeyID cfg.SecretAccessKey cfg.UseSSL cfg.Region,
          Event.minioListBuckets p fiveSeconds] ++ t, ?_, ?_⟩
      · simpa using ha
      · simpa using hb
      · simpa using hc
      · rw [ht]; simp
      · rw [stepsAttempted_append, hs]; simp

theorem GetMinIO_err_congr (env : Env) (cfg : minio.MinIOConfig) (w w0 : World) :
    errOf (minio.GetMinIOClient env cfg w) = errOf (minio.GetMinIOClient env cfg w0) := by
  cases hn : env.minioNew cfg.Endpoint cfg.AccessKeyID cfg.SecretAccessKey cfg.UseSSL
      cfg.Region with
  | error e =>
    rw [GetMinIO_newFails env cfg w e hn, GetMinIO_newFails env cfg w0 e hn]; rfl
  | ok p =>
    cases hq : env.minioListBuckets p with
    | some e =>
      rw [GetMinIO_probeFails env cfg w p e hn hq, GetMinIO_probeFails env cfg w0 p e hn hq]; rfl
    | none =>
      obtain ⟨_, hg, _⟩ := GetMinIO_fresh env cfg w p hn hq
      obtain ⟨_, hg0, _⟩ := GetMinIO_fresh env cfg w0 p hn hq
      rw [hg, hg0]; rfl

/-! ## Close: the paths -/

theorem InfluxClose_eq (env : Env) (c : Option influxdb.InfluxDBClient) (w : World) :
    influxdb.InfluxDBClient.Close env c w =
      match c with
      | none => (Outcome.fault, w.emit (Event.call "InfluxDBClient.Close"))
      | some { Client := none } => (Outcome.ret none, w.emit (Event.call "InfluxDBClient.Close"))
      | some { Client := some p } =>
        (Outcome.ret (env.influxClose p),
          (w.emit (Event.call "InfluxDBClient.Close")).emit (Event.influxClose p)) := by
  rcases c with _ | ⟨_ | p⟩ <;> rfl

theorem MysqlClose_eq (env : Env) (c : Option mysql.MysqlClient) (w : World) :
    mysql.MysqlClient.Close env c w =
      match c with
      | none => (Outcome.ret none, w.emit (Event.call "MysqlClient.Close"))
      | some { Client := none } =>
        (Outcome.fault, (w.emit (Event.call "MysqlClient.Close")).emit (Event.sqlClose none))
      | some { Client := some p } =>
        (Outcome.ret (env.sqlClose p),
          (w.emit (Event.call "MysqlClient.Close")).emit (Event.sqlClose (some p))) := by
  rcases c with _ | ⟨_ | p⟩ <;> rfl

theorem InfluxClose_vars (env : Env) (c : Option influxdb.InfluxDBClient) (w : World) :
    (influxdb.InfluxDBClient.Close env c w).2.vars = w.vars := by
  rw [InfluxClose_eq]; rcases c with _ | ⟨_ | p⟩ <;> rfl

theorem MysqlClose_vars (env : Env) (c : Option mysql.MysqlClient) (w : World) :
    (mysql.MysqlClient.Close env c w).2.vars = w.vars := by
  rw [MysqlClose_eq]; rcases c with _ | ⟨_ | p⟩ <;> rfl

/-- A successful InfluxDB acquisition leaves the cache set to the client the
returned handle wraps. -/
theorem GetInflux_success_caches (env : Env) (cfg : influxdb.InfluxDBConfig) (w w1 : World)
    (h1 : influxdb.InfluxDBClient)
    (h : influxdb.GetInfluxDBClient env cfg w = (Outcome.ret (some h1, none), w1)) :
    ∃ p, h1.Client = some p ∧ w1.InfluxDBCli = some p := by
  obtain ⟨h0, e, w2, hg, hok, _⟩ := GetInflux_step env cfg w
  rw [hg] at h
  simp only [Prod.mk.injEq, Outcome.ret.injEq] at h
  obtain ⟨⟨rfl, rfl⟩, rfl⟩ := h
  obtain ⟨p, hp, hw⟩ := hok rfl
  simp only [Option.some.injEq] at hp
  exact ⟨p, by rw [hp], hw⟩

/-- A successful MySQL acquisition leaves the cache set to the returned
wrapper. -/
theorem GetMysql_success_caches (env : Env) (cfg : mysql.MysqlCOnfig) (w w1 : World)
    (h1 : mysql.MysqlClient)
    (h : mysql.GetMysqlClient env cfg w = (Outcome.ret (some h1, none), w1)) :
    w1.MysqlCli = some h1 := by
  obtain ⟨h0, e, w2, hg, hok, _⟩ := GetMysql_step env cfg w
  rw [hg] at h
  simp only [Prod.mk.injEq, Outcome.ret.injEq] at h
  obtain ⟨⟨rfl, rfl⟩, rfl⟩ := h
  obtain ⟨c, hc, hw⟩ := hok rfl
  rw [hw, ← hc]

/-! ## the claims about acquisition and Close -/

/-- C2: when the process-wide handle is already set, `GetInfluxDBClient`
(resp. `GetMysqlClient`) returns success with a handle wrapping exactly the
cached client, for every configuration and every outside world; no
package-level variable changes, and the only new event is the entry marker of
the acquisition function itself: `InitInfluxDBClient` (resp.
`InitMysqlClient`) is not called, nothing is constructed, probed or logged. -/
theorem cached_acquisition_returns_cache (envI envM : Env) (cfgI : influxdb.InfluxDBConfig)
    (cfgM : mysql.MysqlCOnfig) (wI wM : World) (p : Ptr) (c : mysql.MysqlClient)
    (hI : wI.InfluxDBCli = some p) (hM : wM.MysqlCli = some c) :
    ((influxdb.GetInfluxDBClient envI cfgI wI).1 = Outcome.ret (some { Client := some p }, none) ∧
      (influxdb.GetInfluxDBClient envI cfgI wI).2.vars = wI.vars ∧
      (influxdb.GetInfluxDBClient envI cfgI wI).2.InfluxDBCli = some p ∧
      newEvents wI (influxdb.GetInfluxDBClient envI cfgI wI).2 =
        [Event.call "GetInfluxDBClient"]) ∧
    ((mysql.GetMysqlClient envM cfgM wM).1 = Outcome.ret (some c, none) ∧
      (mysql.GetMysqlClient envM cfgM wM).2.vars = wM.vars ∧
      (mysql.GetMysqlClient envM cfgM wM).2.MysqlCli = some c ∧
      newEvents wM (mysql.GetMysqlClient envM cfgM wM).2 = [Event.call "GetMysqlClient"]) := by
  rw [GetInflux_cached envI cfgI wI p hI, GetMysql_cached envM cfgM wM c hM]
  refine ⟨⟨rfl, rfl, hI, ?_⟩, ⟨rfl, rfl, hM, ?_⟩⟩
  · exact newEvents_of_trace _ _ _ rfl
  · exact newEvents_of_trace _ _ _ rfl

/-- Witness for C2: caches set to the clients at 7 and 9, every service
down, two arbitrary configurations. -/
theorem cached_acquisition_returns_cache_witness :
    World.influxCached.InfluxDBCli = some 7 ∧
    World.mysqlCached.MysqlCli = some { Client := some 9 } ∧
    ((influxdb.GetInfluxDBClient Env.allDown otherInflux World.influxCached).1 =
        Outcome.ret (some { Client := some 7 }, none) ∧
      (influxdb.GetInfluxDBClient Env.allDown otherInflux World.influxCached).2.vars =
        World.influxCached.vars ∧
      (influxdb.GetInfluxDBClient Env.allDown otherInflux World.influxCached).2.InfluxDBCli =
        some 7 ∧
      newEvents World.influxCached
          (influxdb.GetInfluxDBClient Env.allDown otherInflux World.influxCached).2 =
        [Event.call "GetInfluxDBClient"]) ∧
    ((mysql.GetMysqlClient Env.allDown otherMysql World.mysqlCached).1 =
        Outcome.ret (some { Client := some 9 }, none) ∧
      (mysql.GetMysqlClient Env.allDown otherMysql World.mysqlCached).2.vars =
        World.mysqlCached.vars ∧
      (mysql.GetMysqlClient Env.allDown otherMysql World.mysqlCached).2.MysqlCli =
        some { Client := some 9 } ∧
      newEvents World.mysqlCached
          (mysql.GetMysqlClient Env.allDown otherMysql World.mysqlCached).2 =
        [Event.call "GetMysqlClient"]) :=
  ⟨rfl, rfl, cached_acquisition_returns_cache Env.allDown Env.allDown otherInflux otherMysql
    World.influxCached World.mysqlCached 7 { Client := some 9 } rfl rfl⟩

/-- C1, at the failing input: after a successful `GetMinIOClient` in the
initial state, a second `GetMinIOClient` enters `InitMinIOClient`, constructs
a client and probes it again, and returns a handle wrapping the client the
vendor builds then (12), not the one the first call returned (2).  The claim
asks for the identical client and for no construction and no probe. -/
theorem minio_second_acquisition_dials_again :
    (minio.GetMinIOClient Env.allUp sampleMinio World.init).1 =
        Outcome.ret (some { Client := some 2 }, none) ∧
    (minio.GetMinIOClient Env.later sampleMinio
        (minio.GetMinIOClient Env.allUp sampleMinio World.init).2).1 =
        Outcome.ret (some { Client := some 12 }, none) ∧
    newEvents (minio.GetMinIOClient Env.allUp sampleMinio World.init).2
        (minio.GetMinIOClient Env.later sampleMinio
          (minio.GetMinIOClient Env.allUp sampleMinio World.init).2).2 =
      [Event.call "GetMinIOClient", Event.call "InitMinIOClient",
        Event.minioNew "e" "a" "s" false "r", Event.minioListBuckets 12 fiveSeconds,
        Event.call "L", Event.logInfo 0 "MinIO客户端初始化成功"] := by
  decide

/-- The two sibling factories do reuse the first client: for
`GetInfluxDBClient` and `GetMysqlClient`, after a first successful
acquisition a second one, with any configuration and any outside world,
succeeds with a handle wrapping the identical vendor client, changes no
package-level variable and records only its own entry marker (no
construction, no probe). -/
theorem sibling_factories_reuse_first (env1 env2 : Env)
    (cI1 cI2 : influxdb.InfluxDBConfig) (cM1 cM2 : mysql.MysqlCOnfig)
    (wI wI1 wM wM1 : World) (hI : influxdb.InfluxDBClient) (hM : mysql.MysqlClient)
    (firstI : influxdb.GetInfluxDBClient env1 cI1 wI = (Outcome.ret (some hI, none), wI1))
    (firstM : mysql.GetMysqlClient env1 cM1 wM = (Outcome.ret (some hM, none), wM1)) :
    (hI.Client ≠ none ∧
      (influxdb.GetInfluxDBClient env2 cI2 wI1).1 = Outcome.ret (some { Client := hI.Client }, none) ∧
      (influxdb.GetInfluxDBClient env2 cI2 wI1).2.vars = wI1.vars ∧
      newEvents wI1 (influxdb.GetInfluxDBClient env2 cI2 wI1).2 =
        [Event.call "GetInfluxDBClient"]) ∧
    ((mysql.GetMysqlClient env2 cM2 wM1).1 = Outcome.ret (some hM, none) ∧
      (mysql.GetMysqlClient env2 cM2 wM1).2.vars = wM1.vars ∧
      newEvents wM1 (mysql.GetMysqlClient env2 cM2 wM1).2 = [Event.call "GetMysqlClient"]) := by
  obtain ⟨p, hp, hw⟩ := GetInflux_success_caches env1 cI1 wI wI1 hI firstI
  have hm := GetMysql_success_caches env1 cM1 wM wM1 hM firstM
  rw [GetInflux_cached env2 cI2 wI1 p hw, GetMysql_cached env2 cM2 wM1 hM hm]
  exact ⟨⟨by simp [hp], by rw [hp], rfl, newEvents_of_trace _ _ _ rfl⟩,
    ⟨rfl, rfl, newEvents_of_trace _ _ _ rfl⟩⟩

/-- The sibling factories at a concrete input: first acquisitions in the
initial state with every service up, second acquisitions with other
configurations at a later time. -/
theorem sibling_factories_reuse_first_witness :
    ((some 1 : Option Ptr) ≠ none ∧
      (influxdb.GetInfluxDBClient Env.later otherInflux
          (influxdb.GetInfluxDBClient Env.allUp sampleInflux World.init).2).1 =
        Outcome.ret (some { Client := some 1 }, none)) ∧
    (mysql.GetMysqlClient Env.later otherMysql
          (mysql.GetMysqlClient Env.allUp sampleMysql World.init).2).1 =
        Outcome.ret (some { Client := some 3 }, none) :=
  have h := sibling_factories_reuse_first Env.allUp Env.later sampleInflux otherInflux
    sampleMysql otherMysql World.init
    (influxdb.GetInfluxDBClient Env.allUp sampleInflux World.init).2 World.init
    (mysql.GetMysqlClient Env.allUp sampleMysql World.init).2
    { Client := some 1 } { Client := some 3 } (by decide) (by decide)
  ⟨⟨h.1.1, h.1.2.1⟩, h.2.1⟩

/-- `GetMinIOClient` keeps no process-wide handle: in every state and outside
world it enters `InitMinIOClient` and constructs a client, it probes the
client whenever construction succeeds, and when the probe succeeds too the
handle it returns wraps the client built by that very call. -/
theorem GetMinIO_always_dials (env : Env) (cO : minio.MinIOConfig) (wO : World) :
    (newEvents wO (minio.GetMinIOClient env cO wO).2).take 3 =
        [Event.call "GetMinIOClient", Event.call "InitMinIOClient",
          Event.minioNew cO.Endpoint cO.AccessKeyID cO.SecretAccessKey cO.UseSSL cO.Region] ∧
    ∀ p, env.minioNew cO.Endpoint cO.AccessKeyID cO.SecretAccessKey cO.UseSSL cO.Region
          = Except.ok p →
      Event.minioListBuckets p fiveSeconds ∈ newEvents wO (minio.GetMinIOClient env cO wO).2 ∧
      (env.minioListBuckets p = none →
        (minio.GetMinIOClient env cO wO).1 = Outcome.ret (some { Client := some p }, none)) := by
  constructor
  · cases hn : env.minioNew cO.Endpoint cO.AccessKeyID cO.SecretAccessKey cO.UseSSL
        cO.Region with
    | error e =>
      rw [GetMinIO_newFails env cO wO e hn]
      rw [newEvents_of_trace wO _ [Event.call "GetMinIOClient", Event.call "InitMinIOClient",
        Event.minioNew cO.Endpoint cO.AccessKeyID cO.SecretAccessKey cO.UseSSL cO.Region]
        (by simp)]
      rfl
    | ok p =>
      cases hq : env.minioListBuckets p with
      | some e =>
        rw [GetMinIO_probeFails env cO wO p e hn hq]
        rw [newEvents_of_trace wO _ [Event.call "GetMinIOClient", Event.call "InitMinIOClient",
          Event.minioNew cO.Endpoint cO.AccessKeyID cO.SecretAccessKey cO.UseSSL cO.Region,
          Event.minioListBuckets p fiveSeconds] (by simp)]
        rfl
      | none =>
        obtain ⟨w2, hg, _, _, _, t, ht, _⟩ := GetMinIO_fresh env cO wO p hn hq
        rw [hg]
        rw [newEvents_of_trace wO w2 ([Event.call "GetMinIOClient", Event.call "InitMinIOClient",
          Event.minioNew cO.Endpoint cO.AccessKeyID cO.SecretAccessKey cO.UseSSL cO.Region,
          Event.minioListBuckets p fiveSeconds] ++ t) (by rw [ht]; simp)]
        rfl
  · intro p hn
    cases hq : env.minioListBuckets p with
    | some e =>
      rw [GetMinIO_probeFails env cO wO p e hn hq]
      rw [newEvents_of_trace wO _ [Event.call "GetMinIOClient", Event.call "InitMinIOClient",
        Event.minioNew cO.Endpoint cO.AccessKeyID cO.SecretAccessKey cO.UseSSL cO.Region,
        Event.minioListBuckets p fiveSeconds] (by simp)]
      exact ⟨by simp, fun h => (by cases h)⟩
    | none =>
      obtain ⟨w2, hg, _, _, _, t, ht, _⟩ := GetMinIO_fresh env cO wO p hn hq
      rw [hg]
      rw [newEvents_of_trace wO w2 ([Event.call "GetMinIOClient", Event.call "InitMinIOClient",
        Event.minioNew cO.Endpoint cO.AccessKeyID cO.SecretAccessKey cO.UseSSL cO.Region,
        Event.minioListBuckets p fiveSeconds] ++ t) (by rw [ht]; simp)]
      exact ⟨by simp, fun _ => rfl⟩

/-- C3: starting from an empty cache, when client construction or the probe
fails, `GetInfluxDBClient` (resp. `GetMysqlClient`) returns a nil handle with
a non-nil error and no package-level variable has changed, so the cache is
still empty; and a following acquisition whose construction and probe succeed
returns success and leaves the cache holding the newly built client. -/
theorem failed_acquisition_leaves_cache_empty (envF envS : Env)
    (cI cI2 : influxdb.InfluxDBConfig) (cM cM2 : mysql.MysqlCOnfig) (wI wM : World)
    (p2 db2 : Ptr)
    (emptyI : wI.InfluxDBCli = none) (emptyM : wM.MysqlCli = none)
    (failI : (∃ e, envF.influxNew cI.Host cI.Token cI.Database = Except.error e) ∨
      ∃ p e, envF.influxNew cI.Host cI.Token cI.Database = Except.ok p ∧
        envF.influxQuery p "SELECT 1" = some e)
    (failM : (∃ e, envF.sqlOpen "mysql" (mysql.dsn cM) = Except.error e) ∨
      ∃ db e, envF.sqlOpen "mysql" (mysql.dsn cM) = Except.ok db ∧ envF.sqlPing db = some e)
    (newI : envS.influxNew cI2.Host cI2.Token cI2.Database = Except.ok p2)
    (probeI : envS.influxQuery p2 "SELECT 1" = none)
    (newM : envS.sqlOpen "mysql" (mysql.dsn cM2) = Except.ok db2)
    (probeM : envS.sqlPing db2 = none) :
    (∃ err w1, influxdb.GetInfluxDBClient envF cI wI = (Outcome.ret (none, some err), w1) ∧
      w1.vars = wI.vars ∧ w1.InfluxDBCli = none ∧
      ∃ w2, influxdb.GetInfluxDBClient envS cI2 w1 =
          (Outcome.ret (some { Client := some p2 }, none), w2) ∧
        w2.InfluxDBCli = some p2) ∧
    (∃ err w1, mysql.GetMysqlClient envF cM wM = (Outcome.ret (none, some err), w1) ∧
      w1.vars = wM.vars ∧ w1.MysqlCli = none ∧
      ∃ w2, mysql.GetMysqlClient envS cM2 w1 =
          (Outcome.ret (some { Client := some db2 }, none), w2) ∧
        w2.MysqlCli = some { Client := some db2 }) := by
  constructor
  · have key : ∃ err w1, influxdb.GetInfluxDBClient envF cI wI =
        (Outcome.ret (none, some err), w1) ∧ w1.vars = wI.vars := by
      rcases failI with ⟨e, hn⟩ | ⟨p, e, hn, hq⟩
      · exact ⟨_, _, GetInflux_newFails envF cI wI e emptyI hn, by simp⟩
      · exact ⟨_, _, GetInflux_probeFails envF cI wI p e emptyI hn hq, by simp⟩
    obtain ⟨err, w1, hg, hv⟩ := key
    have he : w1.InfluxDBCli = none := by
      have := congrArg (fun v => v.1) hv
      simpa [World.vars, emptyI] using this
    obtain ⟨w2, w3, hg2, _, _⟩ := GetInflux_fresh envS cI2 w1 p2 he newI probeI
    exact ⟨err, w1, hg, hv, he, _, hg2, rfl⟩
  · have key : ∃ err w1, mysql.GetMysqlClient envF cM wM =
        (Outcome.ret (none, some err), w1) ∧ w1.vars = wM.vars := by
      rcases failM with ⟨e, hn⟩ | ⟨p, e, hn, hq⟩
      · exact ⟨_, _, GetMysql_openFails envF cM wM e emptyM hn, by simp⟩
      · exact ⟨_, _, GetMysql_pingFails envF cM wM p e emptyM hn hq, by simp⟩
    obtain ⟨err, w1, hg, hv⟩ := key
    have he : w1.MysqlCli = none := by
      have := congrArg (fun v => v.2.1) hv
      simpa [World.vars, emptyM] using this
    obtain ⟨w2, w3, hg2, _, _⟩ := GetMysql_fresh envS cM2 w1 db2 he newM probeM
    exact ⟨err, w1, hg, hv, he, _, hg2, rfl⟩

/-- Witness for C3: every endpoint unreachable in the initial state, then
every service up. -/
theorem failed_acquisition_leaves_cache_empty_witness :
    (∃ err w1, influxdb.GetInfluxDBClient Env.allDown sampleInflux World.init =
        (Outcome.ret (none, some err), w1) ∧
      w1.vars = World.init.vars ∧ w1.InfluxDBCli = none ∧
      ∃ w2, influxdb.GetInfluxDBClient Env.allUp otherInflux w1 =
          (Outcome.ret (some { Client := some 1 }, none), w2) ∧
        w2.InfluxDBCli = some 1) ∧
    (∃ err w1, mysql.GetMysqlClient Env.allDown sampleMysql World.init =
        (Outcome.ret (none, some err), w1) ∧
      w1.vars = World.init.vars ∧ w1.MysqlCli = none ∧
      ∃ w2, mysql.GetMysqlClient Env.allUp otherMysql w1 =
          (Outcome.ret (some { Client := some 3 }, none), w2) ∧
        w2.MysqlCli = some { Client := some 3 }) :=
  failed_acquisition_leaves_cache_empty Env.allDown Env.allUp sampleInflux otherInflux
    sampleMysql otherMysql World.init World.init 1 3 rfl rfl
    (Or.inl ⟨"no route", rfl⟩) (Or.inl ⟨"no route", rfl⟩) rfl rfl rfl rfl

/-- C4, at the failing inputs: `InfluxDBClient.Close` on a nil wrapper
pointer faults, and `MysqlClient.Close` on a wrapper whose `Client` is nil
invokes the vendor close on that nil handle and faults.  The other two
never-acquired inputs return a nil error with no vendor call, and with a
non-nil `Client` both methods return what the vendor close returns. -/
theorem close_on_unacquired_handle (env : Env) (w : World) (p : Ptr) :
    influxdb.InfluxDBClient.Close env none w =
      (Outcome.fault, w.emit (Event.call "InfluxDBClient.Close")) ∧
    mysql.MysqlClient.Close env (some { Client := none }) w =
      (Outcome.fault, (w.emit (Event.call "MysqlClient.Close")).emit (Event.sqlClose none)) ∧
    influxdb.InfluxDBClient.Close env (some { Client := none }) w =
      (Outcome.ret none, w.emit (Event.call "InfluxDBClient.Close")) ∧
    mysql.MysqlClient.Close env none w =
      (Outcome.ret none, w.emit (Event.call "MysqlClient.Close")) ∧
    influxdb.InfluxDBClient.Close env (some { Client := some p }) w =
      (Outcome.ret (env.influxClose p),
        (w.emit (Event.call "InfluxDBClient.Close")).emit (Event.influxClose p)) ∧
    mysql.MysqlClient.Close env (some { Client := some p }) w =
      (Outcome.ret (env.sqlClose p),
        (w.emit (Event.call "MysqlClient.Close")).emit (Event.sqlClose (some p))) :=
  ⟨rfl, rfl, rfl, rfl, rfl, rfl⟩

/-- C10: `Close` changes no package-level variable, in particular not the
cache; so after a successful acquisition and a `Close` of the returned
handle (which invokes the vendor close on the wrapped client), the next
acquisition, with any configuration and any outside world, succeeds with a
handle wrapping that same, already closed, client and records only its own
entry marker (no construction, no probe). -/
theorem close_keeps_cache (envC env1 env2 env3 : Env) (cI : Option influxdb.InfluxDBClient)
    (cM : Option mysql.MysqlClient) (wC : World)
    (cI1 cI3 : influxdb.InfluxDBConfig) (cM1 cM3 : mysql.MysqlCOnfig)
    (wI wI1 wM wM1 : World) (hI : influxdb.InfluxDBClient) (hM : mysql.MysqlClient)
    (firstI : influxdb.GetInfluxDBClient env1 cI1 wI = (Outcome.ret (some hI, none), wI1))
    (firstM : mysql.GetMysqlClient env1 cM1 wM = (Outcome.ret (some hM, none), wM1)) :
    ((influxdb.InfluxDBClient.Close envC cI wC).2.vars = wC.vars ∧
      (influxdb.InfluxDBClient.Close envC cI wC).2.InfluxDBCli = wC.InfluxDBCli) ∧
    ((mysql.MysqlClient.Close envC cM wC).2.vars = wC.vars ∧
      (mysql.MysqlClient.Close envC cM wC).2.MysqlCli = wC.MysqlCli) ∧
    (∃ p, hI.Client = some p ∧
      Event.influxClose p ∈ newEvents wI1 (influxdb.InfluxDBClient.Close env2 (some hI) wI1).2 ∧
      (influxdb.GetInfluxDBClient env3 cI3
          (influxdb.InfluxDBClient.Close env2 (some hI) wI1).2).1 =
        Outcome.ret (some { Client := some p }, none) ∧
      newEvents (influxdb.InfluxDBClient.Close env2 (some hI) wI1).2
          (influxdb.GetInfluxDBClient env3 cI3
            (influxdb.InfluxDBClient.Close env2 (some hI) wI1).2).2 =
        [Event.call "GetInfluxDBClient"]) ∧
    (Event.sqlClose hM.Client ∈ newEvents wM1 (mysql.MysqlClient.Close env2 (some hM) wM1).2 ∧
      (mysql.GetMysqlClient env3 cM3 (mysql.MysqlClient.Close env2 (some hM) wM1).2).1 =
        Outcome.ret (some hM, none) ∧
      newEvents (mysql.MysqlClient.Close env2 (some hM) wM1).2
          (mysql.GetMysqlClient env3 cM3 (mysql.MysqlClient.Close env2 (some hM) wM1).2).2 =
        [Event.call "GetMysqlClient"]) := by
  have vI := InfluxClose_vars envC cI wC
  have vM := MysqlClose_vars envC cM wC
  refine ⟨⟨vI, congrArg (fun v => v.1) vI⟩, ⟨vM, congrArg (fun v => v.2.1) vM⟩, ?_, ?_⟩
  · obtain ⟨p, hp, hw⟩ := GetInflux_success_caches env1 cI1 wI wI1 hI firstI
    have hclosed : (influxdb.InfluxDBClient.Close env2 (some hI) wI1).2.InfluxDBCli = some p := by
      exact (congrArg (fun v => v.1) (InfluxClose_vars env2 (some hI) wI1)).trans hw
    refine ⟨p, hp, ?_, ?_⟩
    · obtain ⟨c⟩ := hI
      simp only at hp
      subst hp
      rw [InfluxClose_eq]
      rw [newEvents_of_trace wI1 _ [Event.call "InfluxDBClient.Close", Event.influxClose p]
        (by simp)]
      simp
    · rw [GetInflux_cached env3 cI3 _ p hclosed]
      exact ⟨rfl, newEvents_of_trace _ _ _ rfl⟩
  · have hm := GetMysql_success_caches env1 cM1 wM wM1 hM firstM
    have hclosed : (mysql.MysqlClient.Close env2 (some hM) wM1).2.MysqlCli = some hM := by
      exact (congrArg (fun v => v.2.1) (MysqlClose_vars env2 (some hM) wM1)).trans hm
    refine ⟨?_, ?_⟩
    · obtain ⟨c⟩ := hM
      rw [MysqlClose_eq]
      rcases c with _ | q
      · rw [newEvents_of_trace wM1 _ [Event.call "MysqlClient.Close", Event.sqlClose none]
          (by simp)]
        simp
      · rw [newEvents_of_trace wM1 _ [Event.call "MysqlClient.Close", Event.sqlClose (some q)]
          (by simp)]
        simp
    · rw [GetMysql_cached env3 cM3 _ hM hclosed]
      exact ⟨rfl, newEvents_of_trace _ _ _ rfl⟩

/-- Witness for C10: acquire with every service up, close while the vendor
closes report errors, acquire again later with other configurations. -/
theorem close_keeps_cache_witness :
    (influxdb.GetInfluxDBClient Env.later otherInflux
        (influxdb.InfluxDBClient.Close Env.closeFails (some { Client := some 1 })
          (influxdb.GetInfluxDBClient Env.allUp sampleInflux World.init).2).2).1 =
      Outcome.ret (some { Client := some 1 }, none) ∧
    (mysql.GetMysqlClient Env.later otherMysql
        (mysql.MysqlClient.Close Env.closeFails (some { Client := some 3 })
          (mysql.GetMysqlClient Env.allUp sampleMysql World.init).2).2).1 =
      Outcome.ret (some { Client := some 3 }, none) := by
  have h := close_keeps_cache Env.allUp Env.allUp Env.closeFails Env.later none none World.init
    sampleInflux otherInflux sampleMysql otherMysql World.init
    (influxdb.GetInfluxDBClient Env.allUp sampleInflux World.init).2 World.init
    (mysql.GetMysqlClient Env.allUp sampleMysql World.init).2
    { Client := some 1 } { Client := some 3 } (by decide) (by decide)
  obtain ⟨p, hp, _, hres, _⟩ := h.2.2.1
  cases hp
  exact ⟨hres, h.2.2.2.2.1⟩

/-! ## the logger state machine -/

theorem repeatL_of_some (n : Nat) (w : World) (l : logs.Logger) (h : w.globalLogger = some l) :
    (repeatL n w).vars = w.vars ∧ (repeatL n w).nextAddr = w.nextAddr ∧
      (repeatL n w).trace = w.trace ++ List.replicate n (Event.call "L") := by
  induction n generalizing w with
  | zero => simp [repeatL]
  | succ n ih =>
    have ih2 := ih (w.emit (Event.call "L")) (by simpa using h)
    simp only [repeatL, L_of_some w l h]
    refine ⟨ih2.1.trans (by simp), ih2.2.1.trans (by simp), ?_⟩
    rw [ih2.2.2, List.replicate_succ]
    simp

/-- C5: from a state with `globalLogger` nil, `L` returns a non-nil logger,
the one `New(DevConfig())` builds, and installs it (both globals set); in a
state with `globalLogger` set, `L` returns that instance, any number of
times, changing no package-level variable and recording only its own entry
markers (`InitGlobal` is not called); `InitGlobal(cfg)` always succeeds and
installs the logger `New(cfg)` builds at a fresh address, replacing whatever
was active, and every later `L` returns that logger. -/
theorem logger_state_machine (w0 w1 w2 : World) (l : logs.Logger) (cfg : logs.Config)
    (opts : List logs.ZapOption) (n : Nat)
    (h0 : w0.globalLogger = none) (h1 : w1.globalLogger = some l) :
    ((logs.L w0).1 = some (logs.New logs.DevConfig [] w0.nextAddr).1 ∧
      (logs.L w0).2.globalLogger = some (logs.New logs.DevConfig [] w0.nextAddr).1 ∧
      (logs.L w0).2.globalSugar = some { base := (logs.New logs.DevConfig [] w0.nextAddr).1 } ∧
      (∀ k, (logs.L (repeatL k (logs.L w0).2)).1 =
        some (logs.New logs.DevConfig [] w0.nextAddr).1)) ∧
    (logs.L w1 = (some l, w1.emit (Event.call "L")) ∧
      (logs.L (repeatL n w1)).1 = some l ∧
      (repeatL n w1).vars = w1.vars ∧
      newEvents w1 (repeatL n w1) = List.replicate n (Event.call "L")) ∧
    ((logs.InitGlobal cfg opts w2).1 = none ∧
      (logs.InitGlobal cfg opts w2).2.globalLogger = some (logs.New cfg opts w2.nextAddr).1 ∧
      (logs.New cfg opts w2.nextAddr).1.addr = w2.nextAddr ∧
      (logs.InitGlobal cfg opts w2).2.nextAddr = w2.nextAddr + 1 ∧
      (logs.L (repeatL n (logs.InitGlobal cfg opts w2).2)).1 =
        some (logs.New cfg opts w2.nextAddr).1 ∧
      (logs.L (repeatL n (logs.InitGlobal logs.ProdConfig opts w2).2)).1 =
        some (logs.New logs.ProdConfig opts w2.nextAddr).1) := by
  have stay : ∀ (k : Nat) (w : World) (l : logs.Logger), w.globalLogger = some l →
      (logs.L (repeatL k w)).1 = some l := by
    intro k w l h
    have hv := (repeatL_of_some k w l h).1
    have hk : (repeatL k w).globalLogger = some l := by
      have := congrArg (fun v => v.2.2.1) hv
      exact this.trans h
    rw [L_of_some _ l hk]
  refine ⟨?_, ?_, ?_⟩
  · rw [L_of_none w0 h0]
    exact ⟨rfl, rfl, rfl, fun k => stay k _ _ rfl⟩
  · refine ⟨L_of_some w1 l h1, stay n w1 l h1, (repeatL_of_some n w1 l h1).1, ?_⟩
    exact newEvents_of_trace _ _ _ (repeatL_of_some n w1 l h1).2.2
  · rw [InitGlobal_eq, InitGlobal_eq]
    exact ⟨rfl, rfl, rfl, rfl, stay n _ _ rfl, stay n _ _ rfl⟩

/-- Witness for C5: the initial state is uninitialized; the state after one
`L` is initialized. -/
theorem logger_state_machine_witness :
    (logs.L World.init).1 = some (logs.New logs.DevConfig [] 0).1 ∧
    (logs.L (repeatL 3 (logs.L World.init).2)).1 = some (logs.New logs.DevConfig [] 0).1 ∧
    (logs.L (repeatL 3 (logs.InitGlobal logs.ProdConfig [] (logs.L World.init).2).2)).1 =
      some (logs.New logs.ProdConfig [] 1).1 :=
  have h := logger_state_machine World.init (logs.L World.init).2 (logs.L World.init).2
    (logs.New logs.DevConfig [] 0).1 logs.ProdConfig [] 3 rfl rfl
  ⟨h.1.1, h.2.1.2.1, h.2.2.2.2.2.2.1⟩

/-- C9: the two presets as `New` reads them.  Development: debug level,
console encoder, no sampler option, no file sink, exactly one core, writing
to stdout.  Production: info level, JSON encoder, the sampler option, the
rotating file sink with 256 MB, 10 backups and 14 days passed through
`defaultInt` unchanged, exactly two cores. -/
theorem presets_as_New_builds_them (opts : List logs.ZapOption) (addr : Nat) :
    (logs.parseLevel logs.DevConfig.Level = logs.Level.DebugLevel ∧
      logs.chooseEncoder logs.DevConfig = logs.Encoder.Console (logs.encoderConfig true) ∧
      logs.DevConfig.Sampling = false ∧
      (∀ a b c, logs.ZapOption.WrapCoreSampler a b c ∉ (logs.New logs.DevConfig [] addr).1.opts) ∧
      logs.fileSinkAdded logs.DevConfig = false ∧
      (logs.New logs.DevConfig opts addr).1.cores =
        [{ enc := logs.Encoder.Console (logs.encoderConfig true), ws := logs.WriteSyncer.Stdout,
           level := logs.Level.DebugLevel }] ∧
      (logs.New logs.DevConfig opts addr).1.cores.length = 1 ∧
      (logs.New logs.DevConfig opts addr).2 = none) ∧
    (logs.parseLevel logs.ProdConfig.Level = logs.Level.InfoLevel ∧
      logs.chooseEncoder logs.ProdConfig = logs.Encoder.JSON (logs.encoderConfig false) ∧
      logs.ProdConfig.Sampling = true ∧
      logs.ZapOption.WrapCoreSampler logs.timeSecond 100 100 ∈
        (logs.New logs.ProdConfig opts addr).1.opts ∧
      logs.fileSinkAdded logs.ProdConfig = true ∧
      (logs.defaultInt logs.ProdConfig.File.MaxSize 128 = 256 ∧
        logs.defaultInt logs.ProdConfig.File.MaxBackups 7 = 10 ∧
        logs.defaultInt logs.ProdConfig.File.MaxAge 7 = 14) ∧
      (logs.New logs.ProdConfig opts addr).1.cores =
        [{ enc := logs.Encoder.JSON (logs.encoderConfig false), ws := logs.WriteSyncer.Stdout,
           level := logs.Level.InfoLevel },
         { enc := logs.Encoder.JSON (logs.encoderConfig false),
           ws := logs.WriteSyncer.Rotating
             { Filename := "./logs/app.log", MaxSize := 256, MaxBackups := 10, MaxAge := 14,
               Compress := true },
           level := logs.Level.InfoLevel }] ∧
      (logs.New logs.ProdConfig opts addr).1.cores.length = 2 ∧
      (logs.New logs.ProdConfig opts addr).2 = none) := by
  have hd : logs.buildCores logs.DevConfig =
      [{ enc := logs.Encoder.Console (logs.encoderConfig true), ws := logs.WriteSyncer.Stdout,
         level := logs.Level.DebugLevel }] := by decide
  have hp : logs.buildCores logs.ProdConfig =
      [{ enc := logs.Encoder.JSON (logs.encoderConfig false), ws := logs.WriteSyncer.Stdout,
         level := logs.Level.InfoLevel },
       { enc := logs.Encoder.JSON (logs.encoderConfig false),
         ws := logs.WriteSyncer.Rotating
           { Filename := "./logs/app.log", MaxSize := 256, MaxBackups := 10, MaxAge := 14,
             Compress := true },
         level := logs.Level.InfoLevel }] := by decide
  refine ⟨⟨by decide, by decide, rfl, ?_, by decide, hd, ?_, rfl⟩,
    ⟨by decide, by decide, rfl, ?_, by decide, ⟨by decide, by decide, by decide⟩, hp, ?_, rfl⟩⟩
  · intro a b c
    simp [logs.New, logs.buildOpts, logs.DevConfig]
  · show (logs.buildCores logs.DevConfig).length = 1
    rw [hd]; rfl
  · show logs.ZapOption.WrapCoreSampler logs.timeSecond 100 100 ∈
      logs.buildOpts logs.ProdConfig opts
    simp [logs.buildOpts, logs.ProdConfig]
  · show (logs.buildCores logs.ProdConfig).length = 2
    rw [hp]; rfl

/-! ## loading the configuration -/

theorem InitConfig_readFails (env : Env) (path : String) (w : World) (e : String)
    (hr : env.readInConfig (if path = "" then "./config/dev.yaml" else path) = Except.error e) :
    config.InitConfig env path w =
      ((none, some ("read config failed: " ++ e)),
        ((w.emit (Event.call "InitConfig")).emit
          (Event.viperSetConfigFile (if path = "" then "./config/dev.yaml" else path))).emit
          Event.viperReadInConfig) := by
  simp only [config.InitConfig, hr]

theorem InitConfig_decodeFails (env : Env) (path : String) (w : World) (s e : String)
    (hr : env.readInConfig (if path = "" then "./config/dev.yaml" else path) = Except.ok s)
    (hd : env.unmarshal s "yaml" = Except.error e) :
    config.InitConfig env path w =
      ((none, some ("unmarshal config failed: " ++ e)),
        (((w.emit (Event.call "InitConfig")).emit
          (Event.viperSetConfigFile (if path = "" then "./config/dev.yaml" else path))).emit
          Event.viperReadInConfig).emit (Event.viperUnmarshal "yaml")) := by
  simp only [config.InitConfig, hr, hd]

theorem InitConfig_ok (env : Env) (path : String) (w : World) (s : String) (cfg : config.Config)
    (hr : env.readInConfig (if path = "" then "./config/dev.yaml" else path) = Except.ok s)
    (hd : env.unmarshal s "yaml" = Except.ok cfg) :
    config.InitConfig env path w =
      ((some cfg, none),
        (((w.emit (Event.call "InitConfig")).emit
          (Event.viperSetConfigFile (if path = "" then "./config/dev.yaml" else path))).emit
          Event.viperReadInConfig).emit (Event.viperUnmarshal "yaml")) := by
  simp only [config.InitConfig, hr, hd]

/-- The two messages of `InitConfig` never coincide: they differ in their
first character. -/
theorem read_ne_unmarshal (e1 e2 : String) :
    "read config failed: " ++ e1 ≠ "unmarshal config failed: " ++ e2 := by
  intro h
  have h2 := congrArg String.data h
  simp only [String.data_append] at h2
  have h3 := congrArg List.head? h2
  simp at h3

/-- C8: `InitConfig` over an abstract read step and decode step.  A failed
read gives a nil configuration and the error "read config failed: " followed
by the cause, and the decode is not attempted; a failed decode after a
successful read gives a nil configuration and the error "unmarshal config
failed: " followed by the cause; the two messages never coincide; when both
steps succeed the decoded configuration is returned with a nil error.  The
file read is the one at `path`, or at "./config/dev.yaml" when `path` is
empty. -/
theorem initConfig_outcomes (envR envD envS : Env) (path : String) (w : World)
    (eR eD sD sS : String) (cfg : config.Config)
    (readFails : envR.readInConfig (if path = "" then "./config/dev.yaml" else path)
      = Except.error eR)
    (readOkD : envD.readInConfig (if path = "" then "./config/dev.yaml" else path)
      = Except.ok sD)
    (decodeFails : envD.unmarshal sD "yaml" = Except.error eD)
    (readOkS : envS.readInConfig (if path = "" then "./config/dev.yaml" else path)
      = Except.ok sS)
    (decodeOk : envS.unmarshal sS "yaml" = Except.ok cfg) :
    ((config.InitConfig envR path w).1 = (none, some ("read config failed: " ++ eR)) ∧
      Event.viperUnmarshal "yaml" ∉ newEvents w (config.InitConfig envR path w).2) ∧
    (config.InitConfig envD path w).1 = (none, some ("unmarshal config failed: " ++ eD)) ∧
    (config.InitConfig envR path w).1.2 ≠ (config.InitConfig envD path w).1.2 ∧
    (∀ e1 e2 : String, "read config failed: " ++ e1 ≠ "unmarshal config failed: " ++ e2) ∧
    (config.InitConfig envS path w).1 = (some cfg, none) ∧
    (∀ env, config.InitConfig env "" w = config.InitConfig env "./config/dev.yaml" w) ∧
    (∀ env, (newEvents w (config.InitConfig env path w).2).take 2 =
      [Event.call "InitConfig",
        Event.viperSetConfigFile (if path = "" then "./config/dev.yaml" else path)]) := by
  rw [InitConfig_readFails envR path w eR readFails,
    InitConfig_decodeFails envD path w sD eD readOkD decodeFails,
    InitConfig_ok envS path w sS cfg readOkS decodeOk]
  refine ⟨⟨rfl, ?_⟩, rfl, ?_, read_ne_unmarshal, rfl, fun env => rfl, ?_⟩
  · rw [newEvents_of_trace w _ [Event.call "InitConfig",
      Event.viperSetConfigFile (if path = "" then "./config/dev.yaml" else path),
      Event.viperReadInConfig] (by simp)]
    simp
  · intro h
    exact read_ne_unmarshal eR eD (Option.some.inj h)
  · intro env
    have ht : ∃ t, (config.InitConfig env path w).2.trace = w.trace ++ ([Event.call "InitConfig",
        Event.viperSetConfigFile (if path = "" then "./config/dev.yaml" else path)] ++ t) := by
      cases hr : env.readInConfig (if path = "" then "./config/dev.yaml" else path) with
      | error e =>
        rw [InitConfig_readFails env path w e hr]
        exact ⟨[Event.viperReadInConfig], by simp⟩
      | ok s =>
        cases hd : env.unmarshal s "yaml" with
        | error e =>
          rw [InitConfig_decodeFails env path w s e hr hd]
          exact ⟨[Event.viperReadInConfig, Event.viperUnmarshal "yaml"], by simp⟩
        | ok c =>
          rw [InitConfig_ok env path w s c hr hd]
          exact ⟨[Event.viperReadInConfig, Event.viperUnmarshal "yaml"], by simp⟩
    obtain ⟨t, ht⟩ := ht
    rw [newEvents_of_trace w _ _ ht]
    rfl

/-- Witness for C8: the default path, with a missing file, with a file that
does not decode, and with a well-formed file. -/
theorem initConfig_outcomes_witness :
    (config.InitConfig Env.allDown "" World.init).1 =
      (none, some ("read config failed: " ++ "no such file")) ∧
    (config.InitConfig Env.badShape "" World.init).1 =
      (none, some ("unmarshal config failed: " ++ "expected a map")) ∧
    (config.InitConfig Env.allUp "" World.init).1 =
      (some { InfluxDB := sampleInflux, MinIO := sampleMinio, Mysql := sampleMysql }, none) :=
  have h := initConfig_outcomes Env.allDown Env.badShape Env.allUp "" World.init
    "no such file" "expected a map" "settings" "settings"
    { InfluxDB := sampleInflux, MinIO := sampleMinio, Mysql := sampleMysql } rfl rfl rfl rfl rfl
  ⟨h.1.1, h.2.1, h.2.2.2.2.1⟩

/-! ## teardown -/

/-- The events of `logs.L().Info(msg)`: entry markers of the logger, then the
line itself; no vendor close among them. -/
theorem infoViaL_events (msg : String) (w : World) :
    ∃ w2 t a, logs.infoViaL msg w = (Outcome.ret (), w2) ∧
      w2.trace = w.trace ++ (t ++ [Event.logInfo a msg]) ∧ t.filter Event.isClose = [] := by
  cases h : w.globalLogger with
  | none =>
    refine ⟨(logs.infoViaL msg w).2,
      [Event.call "L", Event.call "InitGlobal", Event.zapReplaceGlobals w.nextAddr],
      (logs.New logs.DevConfig [] w.nextAddr).1.addr, ?_, ?_, rfl⟩
    · simp only [logs.infoViaL, L_of_none w h]
    · simp only [logs.infoViaL, L_of_none w h, World.emit]
      simp
  | some l =>
    refine ⟨(logs.infoViaL msg w).2, [Event.call "L"], l.addr, ?_, ?_, rfl⟩
    · simp only [logs.infoViaL, L_of_some w l h]
    · simp only [logs.infoViaL, L_of_some w l h, World.emit]
      simp

/-- The result and the final state of `CloseClient` do not depend on what the
vendor closes return. -/
theorem CloseClient_env_irrelevant (env env2 : Env) (w : World) :
    main.CloseClient env w = main.CloseClient env2 w := by
  simp only [main.CloseClient, emit_AppClient]
  cases hA : w.AppClient with
  | none => rfl
  | some app =>
    obtain ⟨cI, cO, cM⟩ := app
    rcases cI with _ | ⟨_ | p⟩ <;> rcases cM with _ | ⟨_ | q⟩ <;>
      simp [InfluxClose_eq, MysqlClose_eq, hA]

/-- With valid handles, `CloseClient` returns, invoking each vendor close
once, in order, and logging the completion line last. -/
theorem CloseClient_events (env : Env) (w : World) (app : main.Client) (pI pM : Ptr)
    (hA : w.AppClient = some app) (hI : app.InfluxDB = some { Client := some pI })
    (hM : app.Mysql = some { Client := some pM }) :
    ∃ w2 t a, main.CloseClient env w = (Outcome.ret (), w2) ∧
      w2.trace = w.trace ++ ([Event.call "CloseClient", Event.call "InfluxDBClient.Close",
        Event.influxClose pI, Event.call "MysqlClient.Close", Event.sqlClose (some pM)] ++
        (t ++ [Event.logInfo a "客户端关闭成功"])) ∧ t.filter Event.isClose = [] := by
  obtain ⟨cI, cO, cM⟩ := app
  simp only at hI hM
  subst hI hM
  obtain ⟨w2, t, a, hw, ht, hf⟩ := infoViaL_events "客户端关闭成功"
    (((((w.emit (Event.call "CloseClient")).emit (Event.call "InfluxDBClient.Close")).emit
      (Event.influxClose pI)).emit (Event.call "MysqlClient.Close")).emit
      (Event.sqlClose (some pM)))
  refine ⟨w2, t, a, ?_, ?_, hf⟩
  · simp only [main.CloseClient, emit_AppClient, hA, InfluxClose_eq, MysqlClose_eq, hw]
  · rw [ht]; simp

/-- C7, as stated, fails: in the state a successful `InitClient` leaves, with
both vendor closes reporting an error, `CloseClient` gives its caller exactly
the result (and the final state) of a teardown in which every close
succeeded. -/
theorem teardown_hides_close_errors :
    World.afterInit.AppClient =
      some { InfluxDB := some { Client := some 1 }, MinIO := some { Client := some 2 },
             Mysql := some { Client := some 3 } } ∧
    (influxdb.InfluxDBClient.Close Env.closeFails (some { Client := some 1 })
      World.afterInit).1 = Outcome.ret (some "influx close failed") ∧
    (mysql.MysqlClient.Close Env.closeFails (some { Client := some 3 })
      World.afterInit).1 = Outcome.ret (some "sql close failed") ∧
    (influxdb.InfluxDBClient.Close Env.allUp (some { Client := some 1 })
      World.afterInit).1 = Outcome.ret none ∧
    (mysql.MysqlClient.Close Env.allUp (some { Client := some 3 })
      World.afterInit).1 = Outcome.ret none ∧
    main.CloseClient Env.closeFails World.afterInit = main.CloseClient Env.allUp World.afterInit :=
  ⟨by decide, rfl, rfl, rfl, rfl, CloseClient_env_irrelevant _ _ _⟩

/-- C7, amended: `CloseClient` has no result and drops the errors the two
`Close` calls return: with valid handles it returns normally, its result and
final state are the same whatever the vendor closes answer, each vendor close
is invoked exactly once, InfluxDB first and MySQL second (nothing is
retried), and the last event is the completion line. -/
theorem teardown_discards_close_errors (env env2 : Env) (w : World) (app : main.Client)
    (pI pM : Ptr) (hA : w.AppClient = some app)
    (hI : app.InfluxDB = some { Client := some pI })
    (hM : app.Mysql = some { Client := some pM }) :
    main.CloseClient env w = main.CloseClient env2 w ∧
    (main.CloseClient env w).1 = Outcome.ret () ∧
    (newEvents w (main.CloseClient env w).2).filter Event.isClose =
      [Event.influxClose pI, Event.sqlClose (some pM)] ∧
    ∃ a, (newEvents w (main.CloseClient env w).2).getLast? =
      some (Event.logInfo a "客户端关闭成功") := by
  obtain ⟨w2, t, a, hc, ht, hf⟩ := CloseClient_events env w app pI pM hA hI hM
  refine ⟨CloseClient_env_irrelevant env env2 w, ?_, ?_, a, ?_⟩
  · rw [hc]
  · rw [hc, newEvents_of_trace w w2 _ ht]
    simp [List.filter_cons, Event.isClose, hf]
  · rw [hc, newEvents_of_trace w w2 _ ht, ← List.append_assoc]
    exact List.getLast?_concat _

/-- Witness for the amended C7: teardown after a successful `InitClient`,
with both vendor closes reporting an error. -/
theorem teardown_discards_close_errors_witness :
    main.CloseClient Env.closeFails World.afterInit = main.CloseClient Env.allUp World.afterInit ∧
    (main.CloseClient Env.closeFails World.afterInit).1 = Outcome.ret () ∧
    (newEvents World.afterInit (main.CloseClient Env.closeFails World.afterInit).2).filter
        Event.isClose = [Event.influxClose 1, Event.sqlClose (some 3)] :=
  have h := teardown_discards_close_errors Env.closeFails Env.allUp World.afterInit
    { InfluxDB := some { Client := some 1 }, MinIO := some { Client := some 2 },
      Mysql := some { Client := some 3 } } 1 3 (by decide) rfl rfl
  ⟨h.1, h.2.1, h.2.2.1⟩

/-! ## bootstrap -/

theorem InitConfig_step (env : Env) (path : String) (w : World) :
    ∃ c e w2, config.InitConfig env path w = ((c, e), w2) ∧
      (e = none → ∃ cfg, c = some cfg) ∧
      w2.InfluxDBCli = w.InfluxDBCli ∧ w2.MysqlCli = w.MysqlCli ∧
      ∃ t, w2.trace = w.trace ++ t ∧ stepsAttempted t = ["InitConfig"] := by
  cases hr : env.readInConfig (if path = "" then "./config/dev.yaml" else path) with
  | error e =>
    exact ⟨_, _, _, InitConfig_readFails env path w e hr, fun he => (by cases he), by simp,
      by simp, [Event.call "InitConfig",
        Event.viperSetConfigFile (if path = "" then "./config/dev.yaml" else path),
        Event.viperReadInConfig], by simp, by simp⟩
  | ok s =>
    cases hd : env.unmarshal s "yaml" with
    | error e =>
      exact ⟨_, _, _, InitConfig_decodeFails env path w s e hr hd, fun he => (by cases he),
        by simp, by simp, [Event.call "InitConfig",
          Event.viperSetConfigFile (if path = "" then "./config/dev.yaml" else path),
          Event.viperReadInConfig, Event.viperUnmarshal "yaml"], by simp, by simp⟩
    | ok cfg =>
      exact ⟨_, _, _, InitConfig_ok env path w s cfg hr hd, fun _ => ⟨cfg, rfl⟩,
        by simp, by simp, [Event.call "InitConfig",
          Event.viperSetConfigFile (if path = "" then "./config/dev.yaml" else path),
          Event.viperReadInConfig, Event.viperUnmarshal "yaml"], by simp, by simp⟩

theorem InitConfig_res_congr (env : Env) (path : String) (w w0 : World) :
    (config.InitConfig env path w).1 = (config.InitConfig env path w0).1 := by
  cases hr : env.readInConfig (if path = "" then "./config/dev.yaml" else path) with
  | error e =>
    rw [InitConfig_readFails env path w e hr, InitConfig_readFails env path w0 e hr]
  | ok s =>
    cases hd : env.unmarshal s "yaml" with
    | error e =>
      rw [InitConfig_decodeFails env path w s e hr hd,
        InitConfig_decodeFails env path w0 s e hr hd]
    | ok cfg =>
      rw [InitConfig_ok env path w s cfg hr hd, InitConfig_ok env path w0 s cfg hr hd]

/-! ## the work of the steps in a trace -/

theorem workOf_append (t u : List Event) : workOf (t ++ u) = workOf t ++ workOf u := by
  simp [workOf, List.filterMap_append]

@[simp] theorem workOf_nil : workOf [] = [] := rfl

@[simp] theorem workOf_cons_InitConfig (t : List Event) :
    workOf (Event.call "InitConfig" :: t) = "InitConfig" :: workOf t := rfl

@[simp] theorem workOf_cons_GetInfluxDBClient (t : List Event) :
    workOf (Event.call "GetInfluxDBClient" :: t) = "GetInfluxDBClient" :: workOf t := rfl

@[simp] theorem workOf_cons_InitInfluxDBClient (t : List Event) :
    workOf (Event.call "InitInfluxDBClient" :: t) = "GetInfluxDBClient" :: workOf t := rfl

@[simp] theorem workOf_cons_GetMinIOClient (t : List Event) :
    workOf (Event.call "GetMinIOClient" :: t) = "GetMinIOClient" :: workOf t := rfl

@[simp] theorem workOf_cons_InitMinIOClient (t : List Event) :
    workOf (Event.call "InitMinIOClient" :: t) = "GetMinIOClient" :: workOf t := rfl

@[simp] theorem workOf_cons_GetMysqlClient (t : List Event) :
    workOf (Event.call "GetMysqlClient" :: t) = "GetMysqlClient" :: workOf t := rfl

@[simp] theorem workOf_cons_InitMysqlClient (t : List Event) :
    workOf (Event.call "InitMysqlClient" :: t) = "GetMysqlClient" :: workOf t := rfl

@[simp] theorem workOf_cons_InitClient (t : List Event) :
    workOf (Event.call "InitClient" :: t) = workOf t := rfl

@[simp] theorem workOf_cons_L (t : List Event) :
    workOf (Event.call "L" :: t) = workOf t := rfl

@[simp] theorem workOf_cons_S (t : List Event) :
    workOf (Event.call "S" :: t) = workOf t := rfl

@[simp] theorem workOf_cons_InitGlobal (t : List Event) :
    workOf (Event.call "InitGlobal" :: t) = workOf t := rfl

@[simp] theorem workOf_cons_InfluxDBClient_Close (t : List Event) :
    workOf (Event.call "InfluxDBClient.Close" :: t) = workOf t := rfl

@[simp] theorem workOf_cons_MysqlClient_Close (t : List Event) :
    workOf (Event.call "MysqlClient.Close" :: t) = workOf t := rfl

@[simp] theorem workOf_cons_CloseClient (t : List Event) :
    workOf (Event.call "CloseClient" :: t) = workOf t := rfl

@[simp] theorem workOf_cons_influxNew (t : List Event) : ∀ a b c ,
    workOf ((Event.influxNew a b c) :: t) = "GetInfluxDBClient" :: workOf t := fun _ _ _ => rfl

@[simp] theorem workOf_cons_influxQuery (t : List Event) : ∀ a b c ,
    workOf ((Event.influxQuery a b c) :: t) = "GetInfluxDBClient" :: workOf t := fun _ _ _ => rfl

@[simp] theorem workOf_cons_influxClose (t : List Event) : ∀ a ,
    workOf ((Event.influxClose a) :: t) = workOf t := fun _ => rfl

@[simp] theorem workOf_cons_minioNew (t : List Event) : ∀ a b c d e ,
    workOf ((Event.minioNew a b c d e) :: t) = "GetMinIOClient" :: workOf t := fun _ _ _ _ _ => rfl

@[simp] theorem workOf_cons_minioListBuckets (t : List Event) : ∀ a b ,
    workOf ((Event.minioListBuckets a b) :: t) = "GetMinIOClient" :: workOf t := fun _ _ => rfl

@[simp] theorem workOf_cons_sqlOpen (t : List Event) : ∀ a b ,
    workOf ((Event.sqlOpen a b) :: t) = "GetMysqlClient" :: workOf t := fun _ _ => rfl

@[simp] theorem workOf_cons_sqlSetMaxOpenConns (t : List Event) : ∀ a b ,
    workOf ((Event.sqlSetMaxOpenConns a b) :: t) = "GetMysqlClient" :: workOf t := fun _ _ => rfl

@[simp] theorem workOf_cons_sqlSetMaxIdleConns (t : List Event) : ∀ a b ,
    workOf ((Event.sqlSetMaxIdleConns a b) :: t) = "GetMysqlClient" :: workOf t := fun _ _ => rfl

@[simp] theorem workOf_cons_sqlSetConnMaxLifetime (t : List Event) : ∀ a b ,
    workOf ((Event.sqlSetConnMaxLifetime a b) :: t) = "GetMysqlClient" :: workOf t := fun _ _ => rfl

@[simp] theorem workOf_cons_sqlPing (t : List Event) : ∀ a ,
    workOf ((Event.sqlPing a) :: t) = "GetMysqlClient" :: workOf t := fun _ => rfl

@[simp] theorem workOf_cons_sqlClose (t : List Event) : ∀ a ,
    workOf ((Event.sqlClose a) :: t) = workOf t := fun _ => rfl

@[simp] theorem workOf_cons_viperSetConfigFile (t : List Event) : ∀ a ,
    workOf ((Event.viperSetConfigFile a) :: t) = "InitConfig" :: workOf t := fun _ => rfl

@[simp] theorem workOf_cons_viperUnmarshal (t : List Event) : ∀ a ,
    workOf ((Event.viperUnmarshal a) :: t) = "InitConfig" :: workOf t := fun _ => rfl

@[simp] theorem workOf_cons_fmtPrintln (t : List Event) : ∀ a ,
    workOf ((Event.fmtPrintln a) :: t) = workOf t := fun _ => rfl

@[simp] theorem workOf_cons_zapReplaceGlobals (t : List Event) : ∀ a ,
    workOf ((Event.zapReplaceGlobals a) :: t) = workOf t := fun _ => rfl

@[simp] theorem workOf_cons_viperReadInConfig (t : List Event) :
    workOf (Event.viperReadInConfig :: t) = "InitConfig" :: workOf t := rfl

@[simp] theorem workOf_cons_influxLine (t : List Event) (a : Nat) :
    workOf (Event.logInfo a "InfluxDB客户端初始化成功" :: t) = "GetInfluxDBClient" :: workOf t := rfl

@[simp] theorem workOf_cons_minioLine (t : List Event) (a : Nat) :
    workOf (Event.logInfo a "MinIO客户端初始化成功" :: t) = "GetMinIOClient" :: workOf t := rfl

@[simp] theorem workOf_cons_mysqlLine (t : List Event) (a : Nat) :
    workOf (Event.logInfo a "Mysql客户端初始化成功" :: t) = "GetMysqlClient" :: workOf t := rfl

/-- The events of `logs.L().Info(msg)` before the line itself are the work of
no step. -/
theorem infoViaL_work (msg : String) (w : World) :
    ∃ w2 t a, logs.infoViaL msg w = (Outcome.ret (), w2) ∧
      w2.trace = w.trace ++ (t ++ [Event.logInfo a msg]) ∧ workOf t = [] := by
  cases h : w.globalLogger with
  | none =>
    refine ⟨(logs.infoViaL msg w).2,
      [Event.call "L", Event.call "InitGlobal", Event.zapReplaceGlobals w.nextAddr],
      (logs.New logs.DevConfig [] w.nextAddr).1.addr, ?_, ?_, rfl⟩
    · simp only [logs.infoViaL, L_of_none w h]
    · simp only [logs.infoViaL, L_of_none w h, World.emit]
      simp
  | some l =>
    refine ⟨(logs.infoViaL msg w).2, [Event.call "L"], l.addr, ?_, ?_, rfl⟩
    · simp only [logs.infoViaL, L_of_some w l h]
    · simp only [logs.infoViaL, L_of_some w l h, World.emit]
      simp

theorem GetInflux_work (env : Env) (cfg : influxdb.InfluxDBConfig) (w : World) :
    (∀ s ∈ workOf (newEvents w (influxdb.GetInfluxDBClient env cfg w).2),
        s = "GetInfluxDBClient") ∧
      (errOf (influxdb.GetInfluxDBClient env cfg w) ≠ none →
        ∃ ev, (newEvents w (influxdb.GetInfluxDBClient env cfg w).2).getLast? = some ev ∧
          ev.stepOf = some "GetInfluxDBClient") := by
  cases h : w.InfluxDBCli with
  | some p =>
    rw [GetInflux_cached env cfg w p h,
      newEvents_of_trace w _ [Event.call "GetInfluxDBClient"] rfl]
    exact ⟨by simp, fun hne => absurd rfl hne⟩
  | none =>
    cases hn : env.influxNew cfg.Host cfg.Token cfg.Database with
    | error e =>
      rw [GetInflux_newFails env cfg w e h hn,
        newEvents_of_trace w _ [Event.call "GetInfluxDBClient", Event.call "InitInfluxDBClient",
          Event.influxNew cfg.Host cfg.Token cfg.Database] (by simp)]
      exact ⟨by simp, fun _ => ⟨_, rfl, rfl⟩⟩
    | ok p =>
      cases hq : env.influxQuery p "SELECT 1" with
      | some e =>
        rw [GetInflux_probeFails env cfg w p e h hn hq,
          newEvents_of_trace w _ [Event.call "GetInfluxDBClient",
            Event.call "InitInfluxDBClient", Event.influxNew cfg.Host cfg.Token cfg.Database,
            Event.influxQuery p fiveSeconds "SELECT 1"] (by simp)]
        exact ⟨by simp, fun _ => ⟨_, rfl, rfl⟩⟩
      | none =>
        obtain ⟨w2, t, a, hw, ht, hwk⟩ := infoViaL_work "InfluxDB客户端初始化成功"
          ((((w.emit (Event.call "GetInfluxDBClient")).emit
            (Event.call "InitInfluxDBClient")).emit
            (Event.influxNew cfg.Host cfg.Token cfg.Database)).emit
            (Event.influxQuery p fiveSeconds "SELECT 1"))
        have hg : influxdb.GetInfluxDBClient env cfg w =
            (Outcome.ret (some { Client := some p }, none), { w2 with InfluxDBCli := some p }) := by
          simp only [influxdb.GetInfluxDBClient, influxdb.InitInfluxDBClient, emit_InfluxDBCli,
            h, hn, hq, hw]
        rw [hg, newEvents_of_trace w _ ([Event.call "GetInfluxDBClient",
            Event.call "InitInfluxDBClient", Event.influxNew cfg.Host cfg.Token cfg.Database,
            Event.influxQuery p fiveSeconds "SELECT 1"] ++
            (t ++ [Event.logInfo a "InfluxDB客户端初始化成功"])) (by show w2.trace = _; rw [ht]; simp)]
        refine ⟨?_, fun hne => absurd rfl hne⟩
        rw [workOf_append, workOf_append, hwk]
        simp

theorem GetMysql_work (env : Env) (cfg : mysql.MysqlCOnfig) (w : World) :
    (∀ s ∈ workOf (newEvents w (mysql.GetMysqlClient env cfg w).2), s = "GetMysqlClient") ∧
      (errOf (mysql.GetMysqlClient env cfg w) ≠ none →
        ∃ ev, (newEvents w (mysql.GetMysqlClient env cfg w).2).getLast? = some ev ∧
          ev.stepOf = some "GetMysqlClient") := by
  cases h : w.MysqlCli with
  | some c =>
    rw [GetMysql_cached env cfg w c h, newEvents_of_trace w _ [Event.call "GetMysqlClient"] rfl]
    exact ⟨by simp, fun hne => absurd rfl hne⟩
  | none =>
    cases hn : env.sqlOpen "mysql" (mysql.dsn cfg) with
    | error e =>
      rw [GetMysql_openFails env cfg w e h hn,
        newEvents_of_trace w _ [Event.call "GetMysqlClient", Event.call "InitMysqlClient",
          Event.sqlOpen "mysql" (mysql.dsn cfg)] (by simp)]
      exact ⟨by simp, fun _ => ⟨_, rfl, rfl⟩⟩
    | ok db =>
      cases hq : env.sqlPing db with
      | some e =>
        rw [GetMysql_pingFails env cfg w db e h hn hq,
          newEvents_of_trace w _ [Event.call "GetMysqlClient", Event.call "InitMysqlClient",
            Event.sqlOpen "mysql" (mysql.dsn cfg), Event.sqlSetMaxOpenConns db cfg.MaxOpenConns,
            Event.sqlSetMaxIdleConns db cfg.MaxIdleConns,
            Event.sqlSetConnMaxLifetime db (wrapInt64 (cfg.MaxLifetime * timeMinute)),
            Event.sqlPing db] (by simp)]
        exact ⟨by simp, fun _ => ⟨_, rfl, rfl⟩⟩
      | none =>
        obtain ⟨w2, t, a, hw, ht, hwk⟩ := infoViaL_work "Mysql客户端初始化成功"
          (((((((w.emit (Event.call "GetMysqlClient")).emit (Event.call "InitMysqlClient")).emit
            (Event.sqlOpen "mysql" (mysql.dsn cfg))).emit
            (Event.sqlSetMaxOpenConns db cfg.MaxOpenConns)).emit
            (Event.sqlSetMaxIdleConns db cfg.MaxIdleConns)).emit
            (Event.sqlSetConnMaxLifetime db (wrapInt64 (cfg.MaxLifetime * timeMinute)))).emit
            (Event.sqlPing db))
        have hg : mysql.GetMysqlClient env cfg w =
            (Outcome.ret (some { Client := some db }, none),
              { w2 with MysqlCli := some { Client := some db } }) := by
          simp only [mysql.GetMysqlClient, mysql.InitMysqlClient, emit_MysqlCli, h, hn, hq, hw]
        rw [hg, newEvents_of_trace w _ ([Event.call "GetMysqlClient",
            Event.call "InitMysqlClient", Event.sqlOpen "mysql" (mysql.dsn cfg),
            Event.sqlSetMaxOpenConns db cfg.MaxOpenConns,
            Event.sqlSetMaxIdleConns db cfg.MaxIdleConns,
            Event.sqlSetConnMaxLifetime db (wrapInt64 (cfg.MaxLifetime * timeMinute)),
            Event.sqlPing db] ++ (t ++ [Event.logInfo a "Mysql客户端初始化成功"]))
            (by show w2.trace = _; rw [ht]; simp)]
        refine ⟨?_, fun hne => absurd rfl hne⟩
        rw [workOf_append, workOf_append, hwk]
        simp

theorem GetMinIO_work (env : Env) (cfg : minio.MinIOConfig) (w : World) :
    (∀ s ∈ workOf (newEvents w (minio.GetMinIOClient env cfg w).2), s = "GetMinIOClient") ∧
      (errOf (minio.GetMinIOClient env cfg w) ≠ none →
        ∃ ev, (newEvents w (minio.GetMinIOClient env cfg w).2).getLast? = some ev ∧
          ev.stepOf = some "GetMinIOClient") := by
  cases hn : env.minioNew cfg.Endpoint cfg.AccessKeyID cfg.SecretAccessKey cfg.UseSSL
      cfg.Region with
  | error e =>
    rw [GetMinIO_newFails env cfg w e hn,
      newEvents_of_trace w _ [Event.call "GetMinIOClient", Event.call "InitMinIOClient",
        Event.minioNew cfg.Endpoint cfg.AccessKeyID cfg.SecretAccessKey cfg.UseSSL cfg.Region]
        (by simp)]
    exact ⟨by simp, fun _ => ⟨_, rfl, rfl⟩⟩
  | ok p =>
    cases hq : env.minioListBuckets p with
    | some e =>
      rw [GetMinIO_probeFails env cfg w p e hn hq,
        newEvents_of_trace w _ [Event.call "GetMinIOClient", Event.call "InitMinIOClient",
          Event.minioNew cfg.Endpoint cfg.AccessKeyID cfg.SecretAccessKey cfg.UseSSL cfg.Region,
          Event.minioListBuckets p fiveSeconds] (by simp)]
      exact ⟨by simp, fun _ => ⟨_, rfl, rfl⟩⟩
    | none =>
      obtain ⟨w2, t, a, hw, ht, hwk⟩ := infoViaL_work "MinIO客户端初始化成功"
        ((((w.emit (Event.call "GetMinIOClient")).emit (Event.call "InitMinIOClient")).emit
          (Event.minioNew cfg.Endpoint cfg.AccessKeyID cfg.SecretAccessKey cfg.UseSSL
            cfg.Region)).emit (Event.minioListBuckets p fiveSeconds))
      have hg : minio.GetMinIOClient env cfg w =
          (Outcome.ret (some { Client := some p }, none), w2) := by
        simp only [minio.GetMinIOClient, minio.InitMinIOClient, hn, hq, hw]
      rw [hg, newEvents_of_trace w _ ([Event.call "GetMinIOClient",
          Event.call "InitMinIOClient",
          Event.minioNew cfg.Endpoint cfg.AccessKeyID cfg.SecretAccessKey cfg.UseSSL cfg.Region,
          Event.minioListBuckets p fiveSeconds] ++
          (t ++ [Event.logInfo a "MinIO客户端初始化成功"])) (by rw [ht]; simp)]
      refine ⟨?_, fun hne => absurd rfl hne⟩
      rw [workOf_append, workOf_append, hwk]
      simp

theorem InitConfig_work (env : Env) (path : String) (w : World) :
    (∀ s ∈ workOf (newEvents w (config.InitConfig env path w).2), s = "InitConfig") ∧
      ((config.InitConfig env path w).1.2 ≠ none →
        ∃ ev, (newEvents w (config.InitConfig env path w).2).getLast? = some ev ∧
          ev.stepOf = some "InitConfig") := by
  cases hr : env.readInConfig (if path = "" then "./config/dev.yaml" else path) with
  | error e =>
    rw [InitConfig_readFails env path w e hr,
      newEvents_of_trace w _ [Event.call "InitConfig",
        Event.viperSetConfigFile (if path = "" then "./config/dev.yaml" else path),
        Event.viperReadInConfig] (by simp)]
    exact ⟨by simp, fun _ => ⟨_, rfl, rfl⟩⟩
  | ok s =>
    cases hd : env.unmarshal s "yaml" with
    | error e =>
      rw [InitConfig_decodeFails env path w s e hr hd,
        newEvents_of_trace w _ [Event.call "InitConfig",
          Event.viperSetConfigFile (if path = "" then "./config/dev.yaml" else path),
          Event.viperReadInConfig, Event.viperUnmarshal "yaml"] (by simp)]
      exact ⟨by simp, fun _ => ⟨_, rfl, rfl⟩⟩
    | ok cfg =>
      rw [InitConfig_ok env path w s cfg hr hd,
        newEvents_of_trace w _ [Event.call "InitConfig",
          Event.viperSetConfigFile (if path = "" then "./config/dev.yaml" else path),
          Event.viperReadInConfig, Event.viperUnmarshal "yaml"] (by simp)]
      exact ⟨by simp, fun hne => absurd rfl hne⟩

theorem failFast_first_failure (pre post : List (String × GoError)) (name e : String)
    (h : ∀ x ∈ pre, x.2 = none) :
    failFast (pre ++ (name, some e) :: post) = (some e, pre.map Prod.fst ++ [name]) := by
  induction pre with
  | nil => rfl
  | cons x pre ih =>
    obtain ⟨n, v⟩ := x
    have hv : v = none := h (n, v) (List.mem_cons_self _ _)
    subst hv
    have ih2 := ih (fun y hy => h y (List.mem_cons_of_mem _ hy))
    show ((failFast (pre ++ (name, some e) :: post)).1,
        n :: (failFast (pre ++ (name, some e) :: post)).2) = _
    rw [ih2]
    rfl

theorem failFast_three_none (a b c : String) (e1 e2 e3 : GoError) :
    (failFast [(a, e1), (b, e2), (c, e3)]).1 = none ↔ e1 = none ∧ e2 = none ∧ e3 = none := by
  cases e1 <;> cases e2 <;> cases e3 <;> simp [failFast]

theorem getLast?_cons_of_some {α : Type} (x y : α) (l : List α) (h : l.getLast? = some y) :
    (x :: l).getLast? = some y := by
  show ([x] ++ l).getLast? = some y
  rw [List.getLast?_append, h]
  rfl

theorem getLast?_append_of_some {α : Type} (y : α) (l l2 : List α) (h : l2.getLast? = some y) :
    (l ++ l2).getLast? = some y := by
  rw [List.getLast?_append, h]
  rfl

theorem fromMysql_spec (env : Env) (cfg : config.Config) (w : World) (app : main.Client)
    (hA : w.AppClient = some app) :
    ∃ r w2 t, main.fromMysql env cfg w = (Outcome.ret r, w2) ∧ w2.trace = w.trace ++ t ∧
      (r, stepsAttempted t) =
        failFast [("GetMysqlClient", errOf (mysql.GetMysqlClient env cfg.Mysql w))] ∧
      (r = none → ∃ c, w2.AppClient = some { app with Mysql := some c } ∧
        w2.MysqlCli = some c) ∧
      w2.InfluxDBCli = w.InfluxDBCli ∧
      (∀ s ∈ workOf t, s ∈
        (failFast [("GetMysqlClient", errOf (mysql.GetMysqlClient env cfg.Mysql w))]).2) ∧
      (r ≠ none → ∃ ev name, t.getLast? = some ev ∧ ev.stepOf = some name ∧
        (failFast [("GetMysqlClient",
          errOf (mysql.GetMysqlClient env cfg.Mysql w))]).2.getLast? = some name) := by
  obtain ⟨h, e, w1, hg, hok, _, hI, hApp, t, ht, hs⟩ := GetMysql_step env cfg.Mysql w
  have hA1 : w1.AppClient = some app := hApp.trans hA
  have he : errOf (mysql.GetMysqlClient env cfg.Mysql w) = e := by rw [hg]; rfl
  have hwork : (∀ s ∈ workOf t, s = "GetMysqlClient") ∧
      (e ≠ none → ∃ ev, t.getLast? = some ev ∧ ev.stepOf = some "GetMysqlClient") := by
    have h1 := GetMysql_work env cfg.Mysql w
    rw [he] at h1
    simp only [hg] at h1
    rw [newEvents_of_trace w w1 t ht] at h1
    exact h1
  rw [he]
  cases e with
  | some x =>
    refine ⟨some x, { w1 with AppClient := some { app with Mysql := h } }, t, ?_, ht, ?_,
      fun hr => (by cases hr), hI, ?_, ?_⟩
    · simp only [main.fromMysql, hg, main.assignMysql, hA1]
    · rw [hs]; rfl
    · intro s hs1
      rw [hwork.1 s hs1]
      exact List.mem_singleton.mpr rfl
    · intro _
      obtain ⟨ev, hl, hst⟩ := hwork.2 (by simp)
      exact ⟨ev, "GetMysqlClient", hl, hst, rfl⟩
  | none =>
    obtain ⟨c, rfl, hcM⟩ := hok rfl
    refine ⟨none, { w1 with AppClient := some { app with Mysql := some c } }, t, ?_, ht, ?_,
      fun _ => ⟨c, rfl, hcM⟩, hI, ?_, fun hne => absurd rfl hne⟩
    · simp only [main.fromMysql, hg, main.assignMysql, hA1]
    · rw [hs]; rfl
    · intro s hs1
      rw [hwork.1 s hs1]
      exact List.mem_singleton.mpr rfl

theorem fromMinio_spec (env : Env) (cfg : config.Config) (w : World) (app : main.Client)
    (hA : w.AppClient = some app) :
    ∃ r w2 t, main.fromMinio env cfg w = (Outcome.ret r, w2) ∧ w2.trace = w.trace ++ t ∧
      (r, stepsAttempted t) =
        failFast [("GetMinIOClient", errOf (minio.GetMinIOClient env cfg.MinIO w)),
          ("GetMysqlClient", errOf (mysql.GetMysqlClient env cfg.Mysql w))] ∧
      (r = none → ∃ b c, w2.AppClient = some { app with MinIO := some b, Mysql := some c } ∧
        w2.MysqlCli = some c) ∧
      w2.InfluxDBCli = w.InfluxDBCli ∧
      (∀ s ∈ workOf t, s ∈
        (failFast [("GetMinIOClient", errOf (minio.GetMinIOClient env cfg.MinIO w)),
          ("GetMysqlClient", errOf (mysql.GetMysqlClient env cfg.Mysql w))]).2) ∧
      (r ≠ none → ∃ ev name, t.getLast? = some ev ∧ ev.stepOf = some name ∧
        (failFast [("GetMinIOClient", errOf (minio.GetMinIOClient env cfg.MinIO w)),
          ("GetMysqlClient",
            errOf (mysql.GetMysqlClient env cfg.Mysql w))]).2.getLast? = some name) := by
  obtain ⟨h, e, w1, hg, hok, hI, hM, hApp, t, ht, hs⟩ := GetMinIO_step env cfg.MinIO w
  have hA1 : w1.AppClient = some app := hApp.trans hA
  have he : errOf (minio.GetMinIOClient env cfg.MinIO w) = e := by rw [hg]; rfl
  have hwork : (∀ s ∈ workOf t, s = "GetMinIOClient") ∧
      (e ≠ none → ∃ ev, t.getLast? = some ev ∧ ev.stepOf = some "GetMinIOClient") := by
    have h1 := GetMinIO_work env cfg.MinIO w
    rw [he] at h1
    simp only [hg] at h1
    rw [newEvents_of_trace w w1 t ht] at h1
    exact h1
  rw [he]
  cases e with
  | some x =>
    refine ⟨some x, { w1 with AppClient := some { app with MinIO := h } }, t, ?_, ht, ?_,
      fun hr => (by cases hr), hI, ?_, ?_⟩
    · simp only [main.fromMinio, hg, main.assignMinio, hA1]
    · rw [hs]; rfl
    · intro s hs1
      rw [hwork.1 s hs1]
      exact List.mem_singleton.mpr rfl
    · intro _
      obtain ⟨ev, hl, hst⟩ := hwork.2 (by simp)
      exact ⟨ev, "GetMinIOClient", hl, hst, rfl⟩
  | none =>
    obtain ⟨b, rfl⟩ := hok rfl
    obtain ⟨r, w2, t2, hf, ht2, hff, hs2, hI2, hw2, hl2⟩ := fromMysql_spec env cfg
      { w1 with AppClient := some { app with MinIO := some b } } { app with MinIO := some b } rfl
    have hc : errOf (mysql.GetMysqlClient env cfg.Mysql
        { w1 with AppClient := some { app with MinIO := some b } }) =
        errOf (mysql.GetMysqlClient env cfg.Mysql w) :=
      GetMysql_err_congr env cfg.Mysql _ w hM
    rw [hc] at hff hw2 hl2
    refine ⟨r, w2, t ++ t2, ?_, ?_, ?_, ?_, hI2.trans hI, ?_, ?_⟩
    · simp only [main.fromMinio, hg, main.assignMinio, hA1, hf]
    · rw [ht2]; show w1.trace ++ t2 = _; rw [ht, List.append_assoc]
    · rw [stepsAttempted_append, hs]
      simp only [failFast, ← hff]
      rfl
    · intro hr
      obtain ⟨c, hc2, hc3⟩ := hs2 hr
      exact ⟨b, c, hc2, hc3⟩
    · intro s hs1
      rw [workOf_append, List.mem_append] at hs1
      rcases hs1 with h1 | h1
      · rw [hwork.1 s h1]
        exact List.mem_cons_self _ _
      · exact List.mem_cons_of_mem _ (hw2 s h1)
    · intro hr
      obtain ⟨ev, name, hl, hst, hn⟩ := hl2 hr
      exact ⟨ev, name, getLast?_append_of_some ev t t2 hl, hst,
        getLast?_cons_of_some _ name _ hn⟩

theorem fromInflux_spec (env : Env) (cfg : config.Config) (w : World) (app : main.Client)
    (hA : w.AppClient = some app) :
    ∃ r w2 t, main.fromInflux env cfg w = (Outcome.ret r, w2) ∧ w2.trace = w.trace ++ t ∧
      (r, stepsAttempted t) =
        failFast [("GetInfluxDBClient", errOf (influxdb.GetInfluxDBClient env cfg.InfluxDB w)),
          ("GetMinIOClient", errOf (minio.GetMinIOClient env cfg.MinIO w)),
          ("GetMysqlClient", errOf (mysql.GetMysqlClient env cfg.Mysql w))] ∧
      (r = none → ∃ a b c, w2.AppClient =
          some { InfluxDB := some a, MinIO := some b, Mysql := some c } ∧
        a.Client ≠ none ∧ w2.InfluxDBCli = a.Client ∧ w2.MysqlCli = some c) ∧
      (∀ s ∈ workOf t, s ∈
        (failFast [("GetInfluxDBClient",
            errOf (influxdb.GetInfluxDBClient env cfg.InfluxDB w)),
          ("GetMinIOClient", errOf (minio.GetMinIOClient env cfg.MinIO w)),
          ("GetMysqlClient", errOf (mysql.GetMysqlClient env cfg.Mysql w))]).2) ∧
      (r ≠ none → ∃ ev name, t.getLast? = some ev ∧ ev.stepOf = some name ∧
        (failFast [("GetInfluxDBClient",
            errOf (influxdb.GetInfluxDBClient env cfg.InfluxDB w)),
          ("GetMinIOClient", errOf (minio.GetMinIOClient env cfg.MinIO w)),
          ("GetMysqlClient",
            errOf (mysql.GetMysqlClient env cfg.Mysql w))]).2.getLast? = some name) := by
  obtain ⟨h, e, w1, hg, hok, _, hM, hApp, t, ht, hs⟩ := GetInflux_step env cfg.InfluxDB w
  have hA1 : w1.AppClient = some app := hApp.trans hA
  have he : errOf (influxdb.GetInfluxDBClient env cfg.InfluxDB w) = e := by rw [hg]; rfl
  have hwork : (∀ s ∈ workOf t, s = "GetInfluxDBClient") ∧
      (e ≠ none → ∃ ev, t.getLast? = some ev ∧ ev.stepOf = some "GetInfluxDBClient") := by
    have h1 := GetInflux_work env cfg.InfluxDB w
    rw [he] at h1
    simp only [hg] at h1
    rw [newEvents_of_trace w w1 t ht] at h1
    exact h1
  rw [he]
  cases e with
  | some x =>
    refine ⟨some x, { w1 with AppClient := some { app with InfluxDB := h } }, t, ?_, ht, ?_,
      fun hr => (by cases hr), ?_, ?_⟩
    · simp only [main.fromInflux, hg, main.assignInflux, hA1]
    · rw [hs]; rfl
    · intro s hs1
      rw [hwork.1 s hs1]
      exact List.mem_singleton.mpr rfl
    · intro _
      obtain ⟨ev, hl, hst⟩ := hwork.2 (by simp)
      exact ⟨ev, "GetInfluxDBClient", hl, hst, rfl⟩
  | none =>
    obtain ⟨p, rfl, hpI⟩ := hok rfl
    obtain ⟨r, w2, t2, hf, ht2, hff, hs2, hI2, hw2, hl2⟩ := fromMinio_spec env cfg
      { w1 with AppClient := some { app with InfluxDB := some { Client := some p } } }
      { app with InfluxDB := some { Client := some p } } rfl
    have hc : errOf (mysql.GetMysqlClient env cfg.Mysql
        { w1 with AppClient := some { app with InfluxDB := some { Client := some p } } }) =
        errOf (mysql.GetMysqlClient env cfg.Mysql w) :=
      GetMysql_err_congr env cfg.Mysql _ w hM
    have hc2 : errOf (minio.GetMinIOClient env cfg.MinIO
        { w1 with AppClient := some { app with InfluxDB := some { Client := some p } } }) =
        errOf (minio.GetMinIOClient env cfg.MinIO w) :=
      GetMinIO_err_congr env cfg.MinIO _ w
    rw [hc, hc2] at hff hw2 hl2
    refine ⟨r, w2, t ++ t2, ?_, ?_, ?_, ?_, ?_, ?_⟩
    · simp only [main.fromInflux, hg, main.assignInflux, hA1, hf]
    · rw [ht2]; show w1.trace ++ t2 = _; rw [ht, List.append_assoc]
    · rw [stepsAttempted_append, hs]
      rw [failFast, ← hff]
      rfl
    · intro hr
      obtain ⟨b, c, hbc, hcM⟩ := hs2 hr
      exact ⟨_, b, c, hbc, by simp, hI2.trans hpI, hcM⟩
    · intro s hs1
      rw [workOf_append, List.mem_append] at hs1
      rcases hs1 with h1 | h1
      · rw [hwork.1 s h1]
        exact List.mem_cons_self _ _
      · exact List.mem_cons_of_mem _ (hw2 s h1)
    · intro hr
      obtain ⟨ev, name, hl, hst, hn⟩ := hl2 hr
      exact ⟨ev, name, getLast?_append_of_some ev t t2 hl, hst,
        getLast?_cons_of_some _ name _ hn⟩

/-- C6: `InitClient` always returns, and it is the sequential, fail-fast
composition of its four steps.  Its error and the steps it entered are those
of `failFast` applied to the errors the steps return, so the error is the one
of the first failing step.  No work of a later step is done: every event of
the run that is the work of a step (entry markers of the step function and of
its `Init` function, vendor calls, the success line) belongs to a step that
`failFast` runs, and when an error is returned the last event of the run is
work of the failing step, so nothing at all follows it.  The error is nil
exactly when the configuration loads and the three acquisitions return a nil
error, and then `AppClient` holds three non-nil handles, the InfluxDB one
wrapping the cached client and the MySQL one being the cached wrapper. -/
theorem initClient_fail_fast (env : Env) (w : World) :
    ∃ r w2, main.InitClient env w = (Outcome.ret r, w2) ∧
      (r, stepsAttempted (newEvents w w2)) = failFast (stepResults env w) ∧
      (r = none ↔ ∃ cfg, (config.InitConfig env "./config/dev.yaml" w).1 = (some cfg, none) ∧
        errOf (influxdb.GetInfluxDBClient env cfg.InfluxDB w) = none ∧
        errOf (minio.GetMinIOClient env cfg.MinIO w) = none ∧
        errOf (mysql.GetMysqlClient env cfg.Mysql w) = none) ∧
      (r = none → ∃ a b c, w2.AppClient =
          some { InfluxDB := some a, MinIO := some b, Mysql := some c } ∧
        a.Client ≠ none ∧ w2.InfluxDBCli = a.Client ∧ w2.MysqlCli = some c) ∧
      (∀ s ∈ workOf (newEvents w w2), s ∈ (failFast (stepResults env w)).2) ∧
      (r ≠ none → ∃ ev name, (newEvents w w2).getLast? = some ev ∧ ev.stepOf = some name ∧
        (failFast (stepResults env w)).2.getLast? = some name) ∧
      (∀ (pre post : List (String × GoError)) (name e : String), (∀ x ∈ pre, x.2 = none) →
        failFast (pre ++ (name, some e) :: post) = (some e, pre.map Prod.fst ++ [name])) := by
  obtain ⟨c, e0, w0, h0, hcfg, hI0, hM0, t0, ht0, hs0⟩ :=
    InitConfig_step env "./config/dev.yaml" (w.emit (Event.call "InitClient"))
  have hres : (config.InitConfig env "./config/dev.yaml" w).1 = (c, e0) := by
    rw [InitConfig_res_congr env _ w (w.emit (Event.call "InitClient")), h0]
  have hwork0 : (∀ s ∈ workOf t0, s = "InitConfig") ∧
      (e0 ≠ none → ∃ ev, t0.getLast? = some ev ∧ ev.stepOf = some "InitConfig") := by
    have h1 := InitConfig_work env "./config/dev.yaml" (w.emit (Event.call "InitClient"))
    simp only [h0] at h1
    rw [newEvents_of_trace (w.emit (Event.call "InitClient")) w0 t0 ht0] at h1
    exact h1
  cases e0 with
  | some x =>
    have hne : newEvents w w0 = [Event.call "InitClient"] ++ t0 :=
      newEvents_of_trace w w0 _ (by rw [ht0]; simp)
    have hfl : failFast (stepResults env w) = (some x, ["InitConfig"]) := by
      simp only [stepResults, hres, failFast]
    refine ⟨some x, w0, ?_, ?_, ?_, fun hr => (by cases hr), ?_, ?_, failFast_first_failure⟩
    · simp only [main.InitClient, h0]
    · rw [hne, stepsAttempted_append, hs0, hfl]
      rfl
    · constructor
      · intro hr; cases hr
      · rintro ⟨cfg, hc, _⟩
        rw [hres] at hc
        cases hc
    · intro s hs1
      rw [hne, workOf_append, List.mem_append] at hs1
      rw [hfl]
      rcases hs1 with h1 | h1
      · simp at h1
      · rw [hwork0.1 s h1]
        exact List.mem_singleton.mpr rfl
    · intro _
      obtain ⟨ev, hl, hst⟩ := hwork0.2 (by simp)
      rw [hne, hfl]
      exact ⟨ev, "InitConfig", getLast?_append_of_some ev _ t0 hl, hst, rfl⟩
  | none =>
    obtain ⟨cfg, rfl⟩ := hcfg rfl
    obtain ⟨r, w2, t, hf, ht, hff, hs, hw, hl⟩ := fromInflux_spec env cfg
      { (w0.emit (Event.fmtPrintln (some cfg))) with
        AppClient := some { InfluxDB := none, MinIO := none, Mysql := none } }
      { InfluxDB := none, MinIO := none, Mysql := none } rfl
    have c1 : errOf (influxdb.GetInfluxDBClient env cfg.InfluxDB
        { (w0.emit (Event.fmtPrintln (some cfg))) with
          AppClient := some { InfluxDB := none, MinIO := none, Mysql := none } }) =
        errOf (influxdb.GetInfluxDBClient env cfg.InfluxDB w) :=
      GetInflux_err_congr env cfg.InfluxDB _ w (by simpa using hI0)
    have c2 : errOf (minio.GetMinIOClient env cfg.MinIO
        { (w0.emit (Event.fmtPrintln (some cfg))) with
          AppClient := some { InfluxDB := none, MinIO := none, Mysql := none } }) =
        errOf (minio.GetMinIOClient env cfg.MinIO w) :=
      GetMinIO_err_congr env cfg.MinIO _ w
    have c3 : errOf (mysql.GetMysqlClient env cfg.Mysql
        { (w0.emit (Event.fmtPrintln (some cfg))) with
          AppClient := some { InfluxDB := none, MinIO := none, Mysql := none } }) =
        errOf (mysql.GetMysqlClient env cfg.Mysql w) :=
      GetMysql_err_congr env cfg.Mysql _ w (by simpa using hM0)
    rw [c1, c2, c3] at hff hw hl
    have hr1 : r = (failFast
        [("GetInfluxDBClient", errOf (influxdb.GetInfluxDBClient env cfg.InfluxDB w)),
          ("GetMinIOClient", errOf (minio.GetMinIOClient env cfg.MinIO w)),
          ("GetMysqlClient", errOf (mysql.GetMysqlClient env cfg.Mysql w))]).1 :=
      congrArg Prod.fst hff
    have hne : newEvents w w2 = ([Event.call "InitClient"] ++ t0) ++
        ([Event.fmtPrintln (some cfg)] ++ t) :=
      newEvents_of_trace w w2 _ (by rw [ht]; simp [ht0])
    have hfl : failFast (stepResults env w) =
        ((failFast
          [("GetInfluxDBClient", errOf (influxdb.GetInfluxDBClient env cfg.InfluxDB w)),
            ("GetMinIOClient", errOf (minio.GetMinIOClient env cfg.MinIO w)),
            ("GetMysqlClient", errOf (mysql.GetMysqlClient env cfg.Mysql w))]).1,
         "InitConfig" :: (failFast
          [("GetInfluxDBClient", errOf (influxdb.GetInfluxDBClient env cfg.InfluxDB w)),
            ("GetMinIOClient", errOf (minio.GetMinIOClient env cfg.MinIO w)),
            ("GetMysqlClient", errOf (mysql.GetMysqlClient env cfg.Mysql w))]).2) := by
      simp only [stepResults, hres]
      rfl
    refine ⟨r, w2, ?_, ?_, ?_, hs, ?_, ?_, failFast_first_failure⟩
    · simp only [main.InitClient, h0, hf]
    · rw [hne, stepsAttempted_append, stepsAttempted_append, stepsAttempted_append, hs0, hfl,
        ← hr1]
      have h2 := congrArg Prod.snd hff
      simp only at h2
      rw [← h2]
      rfl
    · rw [hr1, failFast_three_none]
      constructor
      · intro h
        exact ⟨cfg, hres, h⟩
      · rintro ⟨cfg2, hc, h⟩
        rw [hres] at hc
        cases hc
        exact h
    · intro s hs1
      rw [hne, workOf_append, workOf_append, workOf_append, List.mem_append, List.mem_append,
        List.mem_append] at hs1
      rw [hfl]
      rcases hs1 with (h1 | h1) | (h1 | h1)
      · simp at h1
      · rw [hwork0.1 s h1]
        exact List.mem_cons_self _ _
      · simp at h1
      · exact List.mem_cons_of_mem _ (hw s h1)
    · intro hr
      obtain ⟨ev, name, hl1, hst, hn⟩ := hl hr
      rw [hne, hfl]
      exact ⟨ev, name,
        getLast?_append_of_some ev _ _ (getLast?_append_of_some ev _ t hl1), hst,
        getLast?_cons_of_some _ name _ hn⟩

/-- Witness for C6: with every service up the four steps run and the error
is nil; with an unreadable configuration file only the first step runs; with
InfluxDB unreachable the run stops there, and the work recorded is that of
the first two steps only. -/
theorem initClient_fail_fast_witness :
    (∃ r w2, main.InitClient Env.allUp World.init = (Outcome.ret r, w2) ∧
      (r, stepsAttempted (newEvents World.init w2)) =
        (none, ["InitConfig", "GetInfluxDBClient", "GetMinIOClient", "GetMysqlClient"])) ∧
    (∃ r w2, main.InitClient Env.allDown World.init = (Outcome.ret r, w2) ∧
      (r, stepsAttempted (newEvents World.init w2)) =
        (some "read config failed: no such file", ["InitConfig"])) ∧
    (∃ r w2, main.InitClient Env.influxDown World.init = (Outcome.ret r, w2) ∧
      (r, stepsAttempted (newEvents World.init w2)) =
        (some "创建InfluxDB客户端失败: no route", ["InitConfig", "GetInfluxDBClient"]) ∧
      (∀ s ∈ workOf (newEvents World.init w2), s ∈ ["InitConfig", "GetInfluxDBClient"]) ∧
      ∃ ev, (newEvents World.init w2).getLast? = some ev ∧
        ev.stepOf = some "GetInfluxDBClient") := by
  obtain ⟨r, w2, h, hff, _⟩ := initClient_fail_fast Env.allUp World.init
  obtain ⟨r', w2', h', hff', _⟩ := initClient_fail_fast Env.allDown World.init
  obtain ⟨r3, w3, h3, hff3, _, _, hw3, hl3, _⟩ := initClient_fail_fast Env.influxDown World.init
  have hfl : failFast (stepResults Env.influxDown World.init) =
      (some "创建InfluxDB客户端失败: no route", ["InitConfig", "GetInfluxDBClient"]) := by decide
  have hr3 : r3 ≠ none := by
    have := congrArg Prod.fst (hff3.trans hfl)
    simp only at this
    rw [this]; simp
  obtain ⟨ev, name, hl, hst, hn⟩ := hl3 hr3
  rw [hfl] at hw3 hn
  have hname : name = "GetInfluxDBClient" := by
    have : some "GetInfluxDBClient" = some name := hn
    exact (Option.some.inj this).symm
  exact ⟨⟨r, w2, h, hff.trans (by decide)⟩, ⟨r', w2', h', hff'.trans (by decide)⟩,
    ⟨r3, w3, h3, hff3.trans hfl, hw3, ev, hl, hname ▸ hst⟩⟩
